import Mathlib

/-!
Verification of the colour-palette tool's core engine.

The source's number type is the IEEE double used by its host language; the
embedding models numeric expressions with exact rational arithmetic (`ℚ`)
for the colour-space conversions and palette generation, and with real
arithmetic (`ℝ`) for the luminance computation, whose gamma curve uses a
real power. `Math.round` rounds half toward positive infinity, modelled by
`jsRound`. `parseInt` failures, which surface as NaN-bearing colours in the
source, are modelled by `Option`.
-/

/-- Model of the host language's `Math.round`: round half toward plus infinity. -/
def jsRound (x : ℚ) : ℤ := ⌊x + 1/2⌋

/-- Wrap an integer to 32-bit two's-complement signed semantics
(the effect of the source's `hash & hash`). -/
def toInt32 (n : ℤ) : ℤ := (n + 2 ^ 31) % 2 ^ 32 - 2 ^ 31

namespace ColorUtility

/-- RGB triple; the source carries channels as plain numbers. -/
structure Rgb where
  r : ℚ
  g : ℚ
  b : ℚ
deriving DecidableEq, Repr, Inhabited

/-- HSL triple; the source carries the components as plain numbers. -/
structure Hsl where
  h : ℚ
  s : ℚ
  l : ℚ
deriving DecidableEq, Repr, Inhabited

/-- Model of one hexadecimal digit of the builtin `parseInt(-, 16)`. -/
def hexDigitVal (c : Char) : Option ℕ :=
  match c with
  | '0' => Option.some 0 | '1' => some 1 | '2' => some 2
  | '3' => Option.some 3 | '4' => some 4 | '5' => some 5
  | '6' => Option.some 6 | '7' => some 7 | '8' => some 8
  | '9' => Option.some 9
  | 'a' => some 10 | 'b' => some 11 | 'c' => some 12
  | 'd' => some 13 | 'e' => some 14 | 'f' => some 15
  | 'A' => some 10 | 'B' => some 11 | 'C' => some 12
  | 'D' => some 13 | 'E' => some 14 | 'F' => some 15
  | _ => none

/-- Model of `parseInt(s, 16)` on a two-character substring. -/
def hexByteVal (c₁ c₂ : Char) : Option ℕ := do
  let d₁ ← hexDigitVal c₁
  let d₂ ← hexDigitVal c₂
  pure (16 * d₁ + d₂)

/-- Model of `hex.replace(/^#/, '')`: drop a single leading hash character. -/
def stripHash (hex : String) : List Char :=
  match hex.data with
  | '#' :: rest => rest
  | l => l

/-- `hexToRgb` from the source: strip a leading `#`, then parse the three
two-digit substrings with `parseInt(-, 16)`. `none` models the NaN-bearing
result the source produces when a substring fails to parse; the model also
maps inputs that are not exactly six digits after stripping to `none`
(the source would parse a prefix or yield NaN there, and no caller or claim
uses such inputs). -/
def hexToRgb (hex : String) : Option Rgb :=
  match stripHash hex with
  | [c₁, c₂, c₃, c₄, c₅, c₆] => do
    let r ← hexByteVal c₁ c₂
    let g ← hexByteVal c₃ c₄
    let b ← hexByteVal c₅ c₆
    pure ⟨(r : ℚ), (g : ℚ), (b : ℚ)⟩
  | _ => none

/-- Model of `n.toString(16)` for a nonnegative integer: lowercase base-16
digits, via the standard digit expansion. -/
def natToHexString (n : ℕ) : String := String.mk (Nat.toDigits 16 n)

/-- Model of `s.padStart(2, '0')`. -/
def padStart2 (s : String) : String :=
  if s.length < 2 then "0" ++ s else s

/-- The `toHex` helper inside the source's `rgbToHex`:
`Math.round(value).toString(16).padStart(2, '0')`. Negative rounded values
(never produced by this program's callers) render with a leading minus sign,
as the builtin `toString` does. -/
def toHexByte (value : ℚ) : String :=
  let n := jsRound value
  if n < 0 then "-" ++ padStart2 (natToHexString n.natAbs)
  else padStart2 (natToHexString n.toNat)

/-- Model of `s.toUpperCase()`: uppercase character by character. -/
def toUpperString (s : String) : String := String.mk (s.data.map Char.toUpper)

/-- `rgbToHex` from the source: round each channel, format as two base-16
digits, join with a leading `#`, and uppercase the result. -/
def rgbToHex (r g b : ℚ) : String :=
  toUpperString ("#" ++ toHexByte r ++ toHexByte g ++ toHexByte b)

/-- `rgbToHsl` from the source: normalise to [0,1], take max/min/delta, and
produce integer-rounded h (degrees), s and l (percent). The source's
`switch (max)` matches `case r` first, then `case g`, then `case b`. -/
def rgbToHsl (r g b : ℚ) : Hsl :=
  let r := r / 255
  let g := g / 255
  let b := b / 255
  let mx := max r (max g b)
  let mn := min r (min g b)
  let delta := mx - mn
  let l := (mx + mn) / 2
  if delta = 0 then
    ⟨0, 0, (jsRound (l * 100) : ℚ)⟩
  else
    let s := if l > 1/2 then delta / (2 - mx - mn) else delta / (mx + mn)
    let h :=
      if mx = r then ((g - b) / delta + (if g < b then 6 else 0)) / 6
      else if mx = g then ((b - r) / delta + 2) / 6
      else ((r - g) / delta + 4) / 6
    ⟨(jsRound (h * 360) : ℚ), (jsRound (s * 100) : ℚ), (jsRound (l * 100) : ℚ)⟩

/-- The `hue2rgb` helper of the source's `hslToRgb`, with its two sequential
wrap adjustments followed by the three-branch piecewise-linear ramp. -/
def hue2rgb (p q t : ℚ) : ℚ :=
  let t := if t < 0 then t + 1 else t
  let t := if t > 1 then t - 1 else t
  if t < 1/6 then p + (q - p) * 6 * t
  else if t < 1/2 then q
  else if t < 2/3 then p + (q - p) * (2/3 - t) * 6
  else p

/-- `hslToRgb` from the source: normalise, handle the achromatic case, else
run `hue2rgb` at the three phase offsets; round each channel to an integer. -/
def hslToRgb (h s l : ℚ) : Rgb :=
  let h := h / 360
  let s := s / 100
  let l := l / 100
  if s = 0 then
    let grey := (jsRound (l * 255) : ℚ)
    ⟨grey, grey, grey⟩
  else
    let q := if l < 1/2 then l * (1 + s) else l + s - l * s
    let p := 2 * l - q
    ⟨(jsRound (hue2rgb p q (h + 1/3) * 255) : ℚ),
     (jsRound (hue2rgb p q h * 255) : ℚ),
     (jsRound (hue2rgb p q (h - 1/3) * 255) : ℚ)⟩

/-- `hue2rgb` on a possibly-NaN argument `t` (`none` models NaN): every
comparison with NaN is false, so the source falls through all branches and
returns `p`; a number runs the rational model above. -/
def hue2rgbJ (p q : ℚ) : Option ℚ → ℚ
  | some t => hue2rgb p q t
  | none => p

/-- `hslToRgb` on a possibly-NaN hue, the only NaN the generator pipeline
produces: `h/360` and the three shifted arguments are NaN exactly when `h`
is. -/
def hslToRgbJ (h : Option ℚ) (s l : ℚ) : Rgb :=
  let h := h.map (· / 360)
  let s := s / 100
  let l := l / 100
  if s = 0 then
    let grey := (jsRound (l * 255) : ℚ)
    ⟨grey, grey, grey⟩
  else
    let q := if l < 1/2 then l * (1 + s) else l + s - l * s
    let p := 2 * l - q
    ⟨(jsRound (hue2rgbJ p q (h.map (· + 1/3)) * 255) : ℚ),
     (jsRound (hue2rgbJ p q h * 255) : ℚ),
     (jsRound (hue2rgbJ p q (h.map (· - 1/3)) * 255) : ℚ)⟩

theorem hslToRgbJ_some (h s l : ℚ) : hslToRgbJ (some h) s l = hslToRgb h s l := rfl

end ColorUtility

/-- A palette colour: hex string, role tag and usage guidance. -/
structure Color where
  hex : String
  role : String
  usage : String
deriving DecidableEq, Repr, Inhabited

/-- The six fixed roles of a palette's colour map, in the source's insertion
order (primary, secondary, accent, background, surface, text). -/
structure PaletteColors where
  primary : Color
  secondary : Color
  accent : Color
  background : Color
  surface : Color
  text : Color
deriving DecidableEq, Repr, Inhabited

/-- An accessible text/background pair as reported by the checker. -/
structure AccessiblePair where
  text : String
  background : String
  ratio : ℝ
deriving Inhabited

/-- A palette value: the colour map plus the name, vibe and accessibility
metadata attached by `generate`. Mood generators build the bare colour map;
the other fields start empty, as in the source's object literals. -/
structure Palette where
  colors : PaletteColors
  name : String := ""
  vibe : String := ""
  accessiblePairs : List AccessiblePair := []
deriving Inhabited

/-- Model of `Object.entries(palette.colors)`: the six role/colour pairs in
insertion order. -/
def colorEntries (c : PaletteColors) : List (String × Color) :=
  [("primary", c.primary), ("secondary", c.secondary), ("accent", c.accent),
   ("background", c.background), ("surface", c.surface), ("text", c.text)]

namespace AccessibilityChecker

/-- The gamma linearisation inside `getRelativeLuminance`. -/
noncomputable def linearize (channel : ℝ) : ℝ :=
  if channel ≤ 0.03928 then channel / 12.92
  else ((channel + 0.055) / 1.055) ^ (2.4 : ℝ)

/-- `getRelativeLuminance` from the source. The checker parses the hex string
with the same `#`-strip-and-`parseInt` logic as `ColorUtility.hexToRgb`;
`none` models the NaN result on unparsable input. -/
noncomputable def getRelativeLuminance (hex : String) : Option ℝ :=
  (ColorUtility.hexToRgb hex).map fun rgb =>
    0.2126 * linearize ((rgb.r : ℝ) / 255) +
    0.7152 * linearize ((rgb.g : ℝ) / 255) +
    0.0722 * linearize ((rgb.b : ℝ) / 255)

/-- `calculateContrastRatio` from the source:
`(lighter + 0.05) / (darker + 0.05)` over the two luminances. -/
noncomputable def calculateContrastRatio (c₁ c₂ : String) : Option ℝ := do
  let l₁ ← getRelativeLuminance c₁
  let l₂ ← getRelativeLuminance c₂
  pure ((max l₁ l₂ + 0.05) / (min l₁ l₂ + 0.05))

/-- `meetsWCAG_AA` from the source: `ratio >= 4.5`. -/
def meetsWCAG_AA (r : ℝ) : Prop := 4.5 ≤ r

/-- `meetsWCAG_AAA` from the source: `ratio >= 7`. -/
def meetsWCAG_AAA (r : ℝ) : Prop := 7 ≤ r

/-- Rounding of the reported ratio: `Math.round(ratio * 100) / 100`. -/
noncomputable def roundRatio (r : ℝ) : ℝ := (⌊r * 100 + 1/2⌋ : ℝ) / 100

open Classical in
/-- `findAccessiblePairs` from the source: enumerate every ordered pair of
distinct indices of the six colour entries, keep pairs whose contrast ratio
meets WCAG AA, and report the ratio rounded to two decimals. A `none`
ratio models the NaN case, for which `meetsWCAG_AA` is false in the source. -/
noncomputable def findAccessiblePairs (palette : Palette) : List AccessiblePair :=
  let colorEntriesList := colorEntries palette.colors
  (List.range colorEntriesList.length).flatMap fun i =>
    (List.range colorEntriesList.length).filterMap fun j =>
      if i = j then none
      else
        let textHex := (colorEntriesList.getD i default).2.hex
        let bgHex := (colorEntriesList.getD j default).2.hex
        match calculateContrastRatio textHex bgHex with
        | none => none
        | some r => if meetsWCAG_AA r then some ⟨textHex, bgHex, roundRatio r⟩ else none

end AccessibilityChecker

/-- The user's preferences record. -/
structure Preferences where
  appType : String
  purpose : String
  colorMood : String
deriving DecidableEq, Repr, Inhabited

namespace PaletteGenerator

open ColorUtility

/-- Build one palette colour with the usage strings the generators share. -/
def mkColors (primary secondary accent background surface text : String) : PaletteColors :=
  ⟨⟨primary, "primary", "Use for main buttons and CTAs"⟩,
   ⟨secondary, "secondary", "Use for secondary actions and highlights"⟩,
   ⟨accent, "accent", "Use for important UI elements and notifications"⟩,
   ⟨background, "background", "Use for main page background"⟩,
   ⟨surface, "surface", "Use for cards and elevated surfaces"⟩,
   ⟨text, "text", "Use for body text and headings"⟩⟩

/-- Shorthand for the generators' `rgbToHex(...Object.values(hslToRgb(h,s,l)))`. -/
def hslHex (h s l : ℚ) : String :=
  let rgb := hslToRgb h s l
  rgbToHex rgb.r rgb.g rgb.b

/-- `generateWarmPalette` from the source. Seeds are integers in this
program (`%` is the truncating remainder `Int.tmod`, as in the source). -/
def generateWarmPalette (seedHue : ℤ) : Palette :=
  let warmHue := if 90 < seedHue ∧ seedHue < 330 then seedHue.tmod 60 else seedHue
  let warmHue := if 60 < warmHue ∧ warmHue < 330 then warmHue.tmod 60 else warmHue
  let secondaryHue := (warmHue + 20).tmod 60
  let accentHue := (warmHue + 40).tmod 60
  { colors := mkColors
      (hslHex warmHue 70 55) (hslHex secondaryHue 65 60) (hslHex accentHue 80 50)
      (hslHex warmHue 20 95) (hslHex warmHue 15 98) "#1A1A1A" }

/-- `generateCoolPalette` from the source. -/
def generateCoolPalette (seedHue : ℤ) : Palette :=
  let coolHue := if seedHue < 150 ∨ 330 < seedHue then 150 + seedHue.tmod 180 else seedHue
  let coolHue := if coolHue < 150 ∨ 330 < coolHue then 150 + coolHue.tmod 180 else coolHue
  let secondaryHue := 150 + (coolHue - 150 + 40).tmod 180
  let accentHue := 150 + (coolHue - 150 + 80).tmod 180
  { colors := mkColors
      (hslHex coolHue 65 50) (hslHex secondaryHue 60 55) (hslHex accentHue 75 45)
      (hslHex coolHue 15 96) (hslHex coolHue 10 99) "#1A1A1A" }

/-- `generatePastelPalette` from the source. -/
def generatePastelPalette (seedHue : ℤ) : Palette :=
  { colors := mkColors
      (hslHex seedHue 45 75) (hslHex ((seedHue + 60).tmod 360) 40 78)
      (hslHex ((seedHue + 120).tmod 360) 48 72)
      (hslHex seedHue 25 95) (hslHex seedHue 20 98) "#2A2A2A" }

/-- `generateDarkModePalette` from the source. -/
def generateDarkModePalette (seedHue : ℤ) : Palette :=
  { colors := mkColors
      (hslHex seedHue 70 60) (hslHex ((seedHue + 30).tmod 360) 65 55)
      (hslHex ((seedHue + 60).tmod 360) 80 65)
      (hslHex seedHue 10 12) (hslHex seedHue 8 18) "#F5F5F5" }

/-- One colour of `_applyProfessionalAdjustments`: round-trip the hex through
HSL, capping saturation at 58 for every role other than text, background and
surface. The `getD` default is never reached for the hex strings this
program feeds in, which always parse (the source would propagate NaN). -/
def adjustColorProfessional (role : String) (color : Color) : Color :=
  let rgb := (hexToRgb color.hex).getD default
  let hsl := rgbToHsl rgb.r rgb.g rgb.b
  let s := if role ≠ "text" ∧ role ≠ "background" ∧ role ≠ "surface"
           then min hsl.s 58 else hsl.s
  let newRgb := hslToRgb hsl.h s hsl.l
  ⟨rgbToHex newRgb.r newRgb.g newRgb.b, color.role, color.usage⟩

/-- `_applyProfessionalAdjustments` from the source: rebuild every colour via
`adjustColorProfessional`, keeping the other palette fields. -/
def applyProfessionalAdjustments (palette : Palette) : Palette :=
  { palette with colors :=
      ⟨adjustColorProfessional "primary" palette.colors.primary,
       adjustColorProfessional "secondary" palette.colors.secondary,
       adjustColorProfessional "accent" palette.colors.accent,
       adjustColorProfessional "background" palette.colors.background,
       adjustColorProfessional "surface" palette.colors.surface,
       adjustColorProfessional "text" palette.colors.text⟩ }

/-- One colour of `_applyPlayfulAdjustments`: round-trip through HSL and, for
the accent role when saturation is already at least 50, force saturation to
at least 65 and lightness to at least 52. -/
def adjustColorPlayful (role : String) (color : Color) : Color :=
  let rgb := (hexToRgb color.hex).getD default
  let hsl := rgbToHsl rgb.r rgb.g rgb.b
  let s := if role = "accent" ∧ 50 ≤ hsl.s then max hsl.s 65 else hsl.s
  let l := if role = "accent" ∧ 50 ≤ hsl.s then max hsl.l 52 else hsl.l
  let newRgb := hslToRgb hsl.h s l
  ⟨rgbToHex newRgb.r newRgb.g newRgb.b, color.role, color.usage⟩

/-- `_applyPlayfulAdjustments` from the source. -/
def applyPlayfulAdjustments (palette : Palette) : Palette :=
  { palette with colors :=
      ⟨adjustColorPlayful "primary" palette.colors.primary,
       adjustColorPlayful "secondary" palette.colors.secondary,
       adjustColorPlayful "accent" palette.colors.accent,
       adjustColorPlayful "background" palette.colors.background,
       adjustColorPlayful "surface" palette.colors.surface,
       adjustColorPlayful "text" palette.colors.text⟩ }

/-- One step of the purpose hash:
`hash = ((hash << 5) - hash) + charCode; hash = hash & hash`. The shift
operates on 32-bit values and the `&` wraps the double back to a signed
32-bit integer, hence the two `toInt32` wraps. -/
def hashStep (hash : ℤ) (c : Char) : ℤ :=
  toInt32 (toInt32 (hash * 32) - hash + (c.toNat : ℤ))

/-- The rolling hash of the purpose string (0 for the empty string, which the
source skips via its truthiness check). -/
def purposeHash (purpose : String) : ℤ := purpose.data.foldl hashStep 0

/-- The own entries of the `typeHueMap` literal with the `|| 200` fallback,
as seen by appTypes whose lookup does not hit the `Object.prototype` chain
(see `protoKeys` and `generateBaseHue`). -/
def typeHue (appType : String) : ℤ :=
  if appType = "web-dashboard" then 210
  else if appType = "mobile-app" then 280
  else if appType = "portfolio" then 180
  else if appType = "e-commerce" then 350
  else if appType = "saas" then 200
  else if appType = "professional" then 220
  else if appType = "playful" then 30
  else 200

/-- The integer `_generateBaseHue` computes when the type lookup misses the
`Object.prototype` chain: hash the purpose, take the own hue entry (or the
200 fallback), apply `variation = Math.abs(hash % 60) - 30`, and wrap into
[0,360). -/
def generateBaseHueNum (appType purpose : String) : ℤ :=
  let hash := purposeHash purpose
  let variation := ((hash.tmod 60).natAbs : ℤ) - 30
  (typeHue appType + variation + 360).tmod 360

/-- The property names a plain object literal inherits from
`Object.prototype`. For these, `typeHueMap[appType]` traverses the
prototype chain and yields the inherited function (for `__proto__`, the
prototype object itself): a truthy value, so the `|| 200` fallback never
fires and the later `+` / `%` arithmetic turns the base hue into NaN. -/
def protoKeys : List String :=
  ["constructor", "hasOwnProperty", "isPrototypeOf", "propertyIsEnumerable",
   "toLocaleString", "toString", "valueOf", "__defineGetter__",
   "__defineSetter__", "__lookupGetter__", "__lookupSetter__", "__proto__"]

/-- `_generateBaseHue` from the source, with the object-literal lookup
modelled faithfully: a prototype property name makes `typeHueMap[appType]`
truthy and non-numeric, so the returned value is NaN (`none`); every other
appType produces the integer `generateBaseHueNum` value. -/
def generateBaseHue (appType purpose : String) : Option ℤ :=
  if appType ∈ protoKeys then none
  else some (generateBaseHueNum appType purpose)

/-- The per-mood name lists of `_generatePaletteName` (cool is the fallback). -/
def moodNames (colorMood : String) : List String :=
  if colorMood = "warm" then ["Sunset Glow", "Autumn Warmth", "Desert Heat"]
  else if colorMood = "cool" then ["Ocean Breeze", "Arctic Frost", "Mountain Mist"]
  else if colorMood = "pastel" then ["Soft Dreams", "Gentle Touch", "Cloud Nine"]
  else if colorMood = "dark" then ["Midnight Sky", "Shadow Depths", "Cosmic Night"]
  else ["Ocean Breeze", "Arctic Frost", "Mountain Mist"]

/-- The per-type modifier table of `_generatePaletteName` (empty fallback). -/
def typeModifier (appType : String) : String :=
  if appType = "professional" then "Professional"
  else if appType = "web-dashboard" then "Dashboard"
  else if appType = "mobile-app" then "Mobile"
  else if appType = "portfolio" then "Creative"
  else if appType = "e-commerce" then "Commerce"
  else if appType = "saas" then "Enterprise"
  else if appType = "playful" then "Playful"
  else ""

/-- `_generatePaletteName` from the source. -/
def generatePaletteName (colorMood appType : String) (index : ℕ) : String :=
  let baseName := (moodNames colorMood).getD index ""
  let modifier := typeModifier appType
  if modifier ≠ "" then baseName ++ " " ++ modifier else baseName

/-- The mood phrase of `_generateVibeDescription` (with fallback). -/
def moodDescription (colorMood : String) : String :=
  if colorMood = "warm" then "warm and inviting"
  else if colorMood = "cool" then "cool and calming"
  else if colorMood = "pastel" then "soft and gentle"
  else if colorMood = "dark" then "bold and modern"
  else "balanced and harmonious"

/-- The type phrase of `_generateVibeDescription` (with fallback). -/
def typeDescription (appType : String) : String :=
  if appType = "professional" then "professional appeal"
  else if appType = "web-dashboard" then "data-focused clarity"
  else if appType = "mobile-app" then "mobile-friendly design"
  else if appType = "portfolio" then "creative expression"
  else if appType = "e-commerce" then "conversion-optimized"
  else if appType = "saas" then "enterprise reliability"
  else if appType = "playful" then "playful energy"
  else "versatile application"

/-- Capitalise the first character, as `charAt(0).toUpperCase() + slice(1)`. -/
def capitalize (s : String) : String :=
  match s.data with
  | [] => ""
  | c :: rest => String.mk (c.toUpper :: rest)

/-- `_generateVibeDescription` from the source. -/
def generateVibeDescription (colorMood appType : String) : String :=
  capitalize (moodDescription colorMood) ++ " with " ++ typeDescription appType

/-- The mood dispatch inside `generate`'s loop (cool is the default). -/
def moodPalette (colorMood : String) (seed : ℤ) : Palette :=
  if colorMood = "warm" then generateWarmPalette seed
  else if colorMood = "cool" then generateCoolPalette seed
  else if colorMood = "pastel" then generatePastelPalette seed
  else if colorMood = "dark" then generateDarkModePalette seed
  else generateCoolPalette seed

/-- The application-type dispatch inside `generate`'s loop. -/
def typeAdjust (appType : String) (palette : Palette) : Palette :=
  if appType = "professional" ∨ appType = "web-dashboard" ∨ appType = "saas" then
    applyProfessionalAdjustments palette
  else if appType = "playful" ∨ appType = "mobile-app" then
    applyPlayfulAdjustments palette
  else palette

/-- One iteration of `generate`'s loop: mood generation, type adjustment,
naming, vibe, and accessibility metadata. -/
noncomputable def generateOne (preferences : Preferences) (index : ℕ) (seed : ℤ) : Palette :=
  let palette := typeAdjust preferences.appType
    (moodPalette preferences.colorMood seed)
  let palette := { palette with
    name := generatePaletteName preferences.colorMood preferences.appType index,
    vibe := generateVibeDescription preferences.colorMood preferences.appType }
  { palette with accessiblePairs := AccessibilityChecker.findAccessiblePairs palette }

/-- JS `+` on the possibly-NaN seed (NaN propagates). -/
def jadd (a : Option ℤ) (k : ℤ) : Option ℤ := a.map (· + k)

/-- JS truncating `%` on the possibly-NaN seed (NaN propagates). -/
def jmod (a : Option ℤ) (k : ℤ) : Option ℤ := a.map (Int.tmod · k)

theorem jadd_some (n k : ℤ) : jadd (some n) k = some (n + k) := rfl

theorem jmod_some (n k : ℤ) : jmod (some n) k = some (n.tmod k) := rfl

/-- The generators' `rgbToHex(...Object.values(hslToRgb(h, s, l)))` on a
possibly-NaN hue. -/
def hslHexJ (h : Option ℤ) (s l : ℚ) : String :=
  let rgb := hslToRgbJ (h.map fun z => (z : ℚ)) s l
  rgbToHex rgb.r rgb.g rgb.b

theorem hslHexJ_some (z : ℤ) (s l : ℚ) : hslHexJ (some z) s l = hslHex (z : ℚ) s l := rfl

/-- `generateWarmPalette` on the possibly-NaN seed `generate` passes: a
number seed runs the integer model above; with a NaN seed both fold
conditions are false, the `%` results stay NaN, and every hue-bearing role
formats a NaN-hue colour. -/
def generateWarmPaletteJ : Option ℤ → Palette
  | some seedHue => generateWarmPalette seedHue
  | none =>
    { colors := mkColors (hslHexJ none 70 55) (hslHexJ none 65 60)
        (hslHexJ none 80 50) (hslHexJ none 20 95) (hslHexJ none 15 98) "#1A1A1A" }

/-- `generateCoolPalette` on the possibly-NaN seed (with NaN both fold
conditions are false and every derived hue stays NaN). -/
def generateCoolPaletteJ : Option ℤ → Palette
  | some seedHue => generateCoolPalette seedHue
  | none =>
    { colors := mkColors (hslHexJ none 65 50) (hslHexJ none 60 55)
        (hslHexJ none 75 45) (hslHexJ none 15 96) (hslHexJ none 10 99) "#1A1A1A" }

/-- `generatePastelPalette` on the possibly-NaN seed (the shifted `%` hues
stay NaN). -/
def generatePastelPaletteJ : Option ℤ → Palette
  | some seedHue => generatePastelPalette seedHue
  | none =>
    { colors := mkColors (hslHexJ none 45 75) (hslHexJ none 40 78)
        (hslHexJ none 48 72) (hslHexJ none 25 95) (hslHexJ none 20 98) "#2A2A2A" }

/-- `generateDarkModePalette` on the possibly-NaN seed. -/
def generateDarkModePaletteJ : Option ℤ → Palette
  | some seedHue => generateDarkModePalette seedHue
  | none =>
    { colors := mkColors (hslHexJ none 70 60) (hslHexJ none 65 55)
        (hslHexJ none 80 65) (hslHexJ none 10 12) (hslHexJ none 8 18) "#F5F5F5" }

/-- The mood dispatch of `generate` on the possibly-NaN seed. -/
def moodPaletteJ (colorMood : String) (seed : Option ℤ) : Palette :=
  if colorMood = "warm" then generateWarmPaletteJ seed
  else if colorMood = "cool" then generateCoolPaletteJ seed
  else if colorMood = "pastel" then generatePastelPaletteJ seed
  else if colorMood = "dark" then generateDarkModePaletteJ seed
  else generateCoolPaletteJ seed

theorem moodPaletteJ_some (colorMood : String) (z : ℤ) :
    moodPaletteJ colorMood (some z) = moodPalette colorMood z := by
  unfold moodPaletteJ moodPalette
  split_ifs <;> rfl

/-- One iteration of `generate`'s loop on the possibly-NaN seed. -/
noncomputable def generateOneJ (preferences : Preferences) (index : ℕ)
    (seed : Option ℤ) : Palette :=
  let palette := typeAdjust preferences.appType
    (moodPaletteJ preferences.colorMood seed)
  let palette := { palette with
    name := generatePaletteName preferences.colorMood preferences.appType index,
    vibe := generateVibeDescription preferences.colorMood preferences.appType }
  { palette with accessiblePairs := AccessibilityChecker.findAccessiblePairs palette }

theorem generateOneJ_some (preferences : Preferences) (index : ℕ) (z : ℤ) :
    generateOneJ preferences index (some z) = generateOne preferences index z := by
  simp only [generateOneJ, generateOne, moodPaletteJ_some]

/-- `generate` from the source: derive the (possibly NaN) base hue, fan out
the three seeds `base`, `(base+120) % 360`, `(base+240) % 360`, and build
the three palettes. -/
noncomputable def generate (preferences : Preferences) : List Palette :=
  let baseHue := generateBaseHue preferences.appType preferences.purpose
  [generateOneJ preferences 0 baseHue,
   generateOneJ preferences 1 (jmod (jadd baseHue 120) 360),
   generateOneJ preferences 2 (jmod (jadd baseHue 240) 360)]

end PaletteGenerator

namespace ColorUtility

/-- Integer mirror of `jsRound` on the fraction `N / d`. -/
def jsRoundZ (N : ℤ) (d : ℕ) : ℤ := (2 * N + d) / (2 * d : ℤ)

theorem jsRound_div (N : ℤ) (d : ℕ) (hd : 0 < d) :
    jsRound ((N : ℚ) / (d : ℚ)) = jsRoundZ N d := by
  have : (N : ℚ) / (d : ℚ) + 1/2 = ((2 * N + d : ℤ) : ℚ) / ((2 * d : ℕ) : ℚ) := by
    have hd2 : ((d : ℚ)) ≠ 0 := by positivity
    push_cast
    field_simp
    ring
  rw [jsRound, this, Rat.floor_intCast_div_natCast]
  unfold jsRoundZ
  push_cast
  ring_nf

end ColorUtility

namespace ColorUtility

end ColorUtility

namespace ColorUtility

/-- Integer mirror of `rgbToHsl` on integer channels: returns the rounded
h, s, l. Proved equal to the rational model in `rgbToHsl_eq_Z` for channels
in [0, 255]. -/
def rgbToHslZ (R G B : ℤ) : ℤ × ℤ × ℤ :=
  let Mx := max R (max G B)
  let Mn := min R (min G B)
  if Mx - Mn = 0 then (0, 0, jsRoundZ ((Mx + Mn) * 100) 510)
  else
    let sZ := if 255 < Mx + Mn then jsRoundZ ((Mx - Mn) * 100) (510 - (Mx + Mn)).toNat
              else jsRoundZ ((Mx - Mn) * 100) (Mx + Mn).toNat
    let hZ := if Mx = R then
                jsRoundZ ((G - B) * 60 + (if G < B then 360 * (Mx - Mn) else 0)) (Mx - Mn).toNat
              else if Mx = G then jsRoundZ ((B - R) * 60 + 120 * (Mx - Mn)) (Mx - Mn).toNat
              else jsRoundZ ((R - G) * 60 + 240 * (Mx - Mn)) (Mx - Mn).toNat
    (hZ, sZ, jsRoundZ ((Mx + Mn) * 100) 510)

theorem rgbToHsl_eq_Z (R G B : ℤ) (h0R : 0 ≤ R) (h0G : 0 ≤ G) (h0B : 0 ≤ B)
    (h1R : R ≤ 255) (h1G : G ≤ 255) (h1B : B ≤ 255) :
    rgbToHsl (R : ℚ) (G : ℚ) (B : ℚ) =
      ⟨((rgbToHslZ R G B).1 : ℚ), ((rgbToHslZ R G B).2.1 : ℚ), ((rgbToHslZ R G B).2.2 : ℚ)⟩ := by
  have h255 : (0 : ℚ) < 255 := by norm_num
  have emax : max ((R : ℚ)/255) (max ((G : ℚ)/255) ((B : ℚ)/255)) =
      ((max R (max G B) : ℤ) : ℚ) / 255 := by
    rw [Int.cast_max, Int.cast_max, max_div_div_right (le_of_lt h255),
      max_div_div_right (le_of_lt h255)]
  have emin : min ((R : ℚ)/255) (min ((G : ℚ)/255) ((B : ℚ)/255)) =
      ((min R (min G B) : ℤ) : ℚ) / 255 := by
    rw [Int.cast_min, Int.cast_min, min_div_div_right (le_of_lt h255),
      min_div_div_right (le_of_lt h255)]
  set Mx := max R (max G B) with hMx
  set Mn := min R (min G B) with hMn
  have hMx0 : 0 ≤ Mx := le_max_of_le_left h0R
  have hMn0 : 0 ≤ Mn := le_min h0R (le_min h0G h0B)
  have hMx255 : Mx ≤ 255 := max_le h1R (max_le h1G h1B)
  have hMn255 : Mn ≤ 255 := min_le_of_left_le h1R
  have hMnMx : Mn ≤ Mx := min_le_of_left_le (le_max_left _ _)
  simp only [rgbToHsl, rgbToHslZ, emax, emin]
  have edelta : (((Mx : ℤ) : ℚ)/255 - ((Mn : ℤ) : ℚ)/255 = 0) = (Mx - Mn = 0) := by
    rw [div_sub_div_same, div_eq_zero_iff]
    norm_num
    exact_mod_cast Iff.rfl
  have elval : (((Mx : ℤ) : ℚ)/255 + ((Mn : ℤ) : ℚ)/255)/2 * 100 =
      (((Mx + Mn) * 100 : ℤ) : ℚ)/((510 : ℕ) : ℚ) := by push_cast; ring
  simp only [edelta]
  by_cases hd : Mx - Mn = 0
  · rw [if_pos hd, if_pos hd, elval, jsRound_div _ _ (by norm_num)]
    norm_num
  · rw [if_neg hd, if_neg hd]
    have hlt : Mn < Mx := by omega
    have esc : ((((Mx : ℤ) : ℚ)/255 + ((Mn : ℤ) : ℚ)/255)/2 > 1/2) = (255 < Mx + Mn) := by
      rw [show (((Mx : ℤ) : ℚ)/255 + ((Mn : ℤ) : ℚ)/255)/2 = ((Mx + Mn : ℤ) : ℚ)/510 by
            push_cast; ring,
          show (1/2 : ℚ) = ((255 : ℤ) : ℚ)/510 by norm_num, gt_iff_lt,
          div_lt_div_iff_of_pos_right (by norm_num : (0:ℚ) < 510)]
      exact propext (by exact_mod_cast Iff.rfl)
    have ediv_eq : ∀ a b : ℤ, (((a : ℤ) : ℚ)/255 = ((b : ℤ) : ℚ)/255) = (a = b) := by
      intro a b
      refine propext ⟨fun hh => ?_, fun hh => by rw [hh]⟩
      field_simp at hh
      exact_mod_cast hh
    have ediv_lt : ∀ a b : ℤ, (((a : ℤ) : ℚ)/255 < ((b : ℤ) : ℚ)/255) = (a < b) := by
      intro a b
      rw [div_lt_div_iff_of_pos_right (by norm_num : (0:ℚ) < 255)]
      exact propext (by exact_mod_cast Iff.rfl)
    have hdQ : ((Mx - Mn : ℤ) : ℚ) ≠ 0 := by exact_mod_cast hd
    have htoNat : ((((Mx - Mn).toNat : ℕ)) : ℚ) = ((Mx - Mn : ℤ) : ℚ) := by
      exact_mod_cast Int.toNat_of_nonneg (by omega)
    have hsum0 : (0 : ℤ) < Mx + Mn := by omega
    have lcomp : jsRound ((((Mx : ℤ) : ℚ)/255 + ((Mn : ℤ) : ℚ)/255)/2 * 100) =
        jsRoundZ ((Mx + Mn) * 100) 510 := by
      rw [elval, jsRound_div _ _ (by norm_num)]
    have hdQ2 : ((Mx : ℤ) : ℚ) - ((Mn : ℤ) : ℚ) ≠ 0 := by
      intro hh
      exact hdQ (by push_cast; linarith)
    have scomp_hi :
        jsRound ((((Mx : ℤ) : ℚ)/255 - ((Mn : ℤ) : ℚ)/255) /
            (2 - ((Mx : ℤ) : ℚ)/255 - ((Mn : ℤ) : ℚ)/255) * 100) =
          jsRoundZ ((Mx - Mn) * 100) (510 - (Mx + Mn)).toNat := by
      have hpos : (0 : ℤ) < 510 - (Mx + Mn) := by omega
      have hcast : ((((510 - (Mx + Mn)).toNat : ℕ)) : ℚ) = ((510 - (Mx + Mn) : ℤ) : ℚ) := by
        exact_mod_cast Int.toNat_of_nonneg (by omega)
      have hBne : (2 - ((Mx : ℤ) : ℚ)/255 - ((Mn : ℤ) : ℚ)/255) ≠ 0 := by
        have : ((Mx : ℤ) : ℚ) + ((Mn : ℤ) : ℚ) < 510 := by exact_mod_cast (by omega : Mx + Mn < 510)
        intro hh; linarith
      have hDne : ((((510 - (Mx + Mn)).toNat : ℕ)) : ℚ) ≠ 0 := by
        rw [hcast]; exact_mod_cast (by omega : (510 - (Mx + Mn) : ℤ) ≠ 0)
      have e : (((Mx : ℤ) : ℚ)/255 - ((Mn : ℤ) : ℚ)/255) /
            (2 - ((Mx : ℤ) : ℚ)/255 - ((Mn : ℤ) : ℚ)/255) * 100 =
          (((Mx - Mn) * 100 : ℤ) : ℚ) / ((((510 - (Mx + Mn)).toNat : ℕ)) : ℚ) := by
        rw [div_mul_eq_mul_div, div_eq_div_iff hBne hDne, hcast]
        push_cast
        ring
      rw [e, jsRound_div _ _ (by omega)]
    have scomp_lo :
        jsRound ((((Mx : ℤ) : ℚ)/255 - ((Mn : ℤ) : ℚ)/255) /
            (((Mx : ℤ) : ℚ)/255 + ((Mn : ℤ) : ℚ)/255) * 100) =
          jsRoundZ ((Mx - Mn) * 100) (Mx + Mn).toNat := by
      have hcast : ((((Mx + Mn).toNat : ℕ)) : ℚ) = ((Mx + Mn : ℤ) : ℚ) := by
        exact_mod_cast Int.toNat_of_nonneg (by omega)
      have hBne : (((Mx : ℤ) : ℚ)/255 + ((Mn : ℤ) : ℚ)/255) ≠ 0 := by
        have : (0 : ℚ) < ((Mx : ℤ) : ℚ) + ((Mn : ℤ) : ℚ) := by
          exact_mod_cast (by omega : (0 : ℤ) < Mx + Mn)
        intro hh; linarith
      have hDne : ((((Mx + Mn).toNat : ℕ)) : ℚ) ≠ 0 := by
        rw [hcast]; exact_mod_cast (by omega : (Mx + Mn : ℤ) ≠ 0)
      have e : (((Mx : ℤ) : ℚ)/255 - ((Mn : ℤ) : ℚ)/255) /
            (((Mx : ℤ) : ℚ)/255 + ((Mn : ℤ) : ℚ)/255) * 100 =
          (((Mx - Mn) * 100 : ℤ) : ℚ) / ((((Mx + Mn).toNat : ℕ)) : ℚ) := by
        rw [div_mul_eq_mul_div, div_eq_div_iff hBne hDne, hcast]
        push_cast
        ring
      rw [e, jsRound_div _ _ (by omega)]
    have hDdne : ((((Mx - Mn).toNat : ℕ)) : ℚ) ≠ 0 := by
      rw [htoNat]; exact hdQ
    have hcomp : ∀ (w : ℚ) (wN : ℤ), w = (wN : ℚ) → ∀ (X Y : ℤ),
        jsRound ((((X : ℚ)/255 - (Y : ℚ)/255) /
              (((Mx : ℤ) : ℚ)/255 - ((Mn : ℤ) : ℚ)/255) + w)/6 * 360) =
          jsRoundZ ((X - Y) * 60 + wN * 60 * (Mx - Mn)) (Mx - Mn).toNat := by
      intro w wN hw X Y
      subst hw
      have e : (((X : ℚ)/255 - (Y : ℚ)/255) /
              (((Mx : ℤ) : ℚ)/255 - ((Mn : ℤ) : ℚ)/255) + (wN : ℚ))/6 * 360 =
          (((X - Y) * 60 + wN * 60 * (Mx - Mn) : ℤ) : ℚ) / ((((Mx - Mn).toNat : ℕ)) : ℚ) := by
        rw [eq_div_iff hDdne, htoNat]
        have e2 : ((X : ℚ)/255 - (Y : ℚ)/255) /
              (((Mx : ℤ) : ℚ)/255 - ((Mn : ℤ) : ℚ)/255) =
            ((X : ℚ) - (Y : ℚ)) / (((Mx : ℤ) : ℚ) - ((Mn : ℤ) : ℚ)) := by
          rw [div_eq_div_iff (by intro hh; exact hdQ2 (by linarith)) hdQ2]
          ring
        rw [e2]
        field_simp
        ring
      rw [e, jsRound_div _ _ (by omega)]
    have hc6 : ∀ X Y : ℤ,
        jsRound ((((X : ℚ)/255 - (Y : ℚ)/255) /
              (((Mx : ℤ) : ℚ)/255 - ((Mn : ℤ) : ℚ)/255) + 6)/6 * 360) =
          jsRoundZ ((X - Y) * 60 + 360 * (Mx - Mn)) (Mx - Mn).toNat := by
      intro X Y
      rw [hcomp 6 6 (by norm_num) X Y]
      congr 2 <;> ring
    have hc0 : ∀ X Y : ℤ,
        jsRound ((((X : ℚ)/255 - (Y : ℚ)/255) /
              (((Mx : ℤ) : ℚ)/255 - ((Mn : ℤ) : ℚ)/255) + 0)/6 * 360) =
          jsRoundZ ((X - Y) * 60 + 0) (Mx - Mn).toNat := by
      intro X Y
      rw [hcomp 0 0 (by norm_num) X Y]
      congr 2 <;> ring
    have hc2 : ∀ X Y : ℤ,
        jsRound ((((X : ℚ)/255 - (Y : ℚ)/255) /
              (((Mx : ℤ) : ℚ)/255 - ((Mn : ℤ) : ℚ)/255) + 2)/6 * 360) =
          jsRoundZ ((X - Y) * 60 + 120 * (Mx - Mn)) (Mx - Mn).toNat := by
      intro X Y
      rw [hcomp 2 2 (by norm_num) X Y]
      congr 2 <;> ring
    have hc4 : ∀ X Y : ℤ,
        jsRound ((((X : ℚ)/255 - (Y : ℚ)/255) /
              (((Mx : ℤ) : ℚ)/255 - ((Mn : ℤ) : ℚ)/255) + 4)/6 * 360) =
          jsRoundZ ((X - Y) * 60 + 240 * (Mx - Mn)) (Mx - Mn).toNat := by
      intro X Y
      rw [hcomp 4 4 (by norm_num) X Y]
      congr 2 <;> ring
    simp only [esc, ediv_eq, ediv_lt]
    split_ifs <;>
      simp only [hc6, hc0, hc2, hc4, scomp_hi, scomp_lo, lcomp] <;>
      rfl

end ColorUtility

namespace ColorUtility

/-- The three-branch ramp of `hue2rgb` stays between `p` and `q` on [0, 1]. -/
theorem ramp_bounds (p q u : ℚ) (hpq : p ≤ q) (hu0 : 0 ≤ u) (hu1 : u ≤ 1) :
    p ≤ (if u < 1/6 then p + (q - p) * 6 * u
         else if u < 1/2 then q
         else if u < 2/3 then p + (q - p) * (2/3 - u) * 6
         else p) ∧
    (if u < 1/6 then p + (q - p) * 6 * u
     else if u < 1/2 then q
     else if u < 2/3 then p + (q - p) * (2/3 - u) * 6
     else p) ≤ q := by
  split_ifs with b1 b2 b3
  · constructor
    · nlinarith [mul_nonneg (sub_nonneg.mpr hpq) hu0]
    · nlinarith [mul_nonneg (sub_nonneg.mpr hpq) (by linarith : (0:ℚ) ≤ 1 - 6*u)]
  · exact ⟨hpq, le_refl q⟩
  · constructor
    · nlinarith [mul_nonneg (sub_nonneg.mpr hpq) (by linarith : (0:ℚ) ≤ 2/3 - u)]
    · nlinarith [mul_nonneg (sub_nonneg.mpr hpq) (by linarith : (0:ℚ) ≤ 1 - (2/3 - u)*6)]
  · exact ⟨le_refl p, hpq⟩

/-- `hue2rgb` stays between `p` and `q` for the phase arguments `hslToRgb`
produces (one wrap suffices on [-1, 2]). -/
theorem hue2rgb_bounds (p q t : ℚ) (hpq : p ≤ q) (ht0 : -1 ≤ t) (ht1 : t ≤ 2) :
    p ≤ hue2rgb p q t ∧ hue2rgb p q t ≤ q := by
  simp only [hue2rgb]
  by_cases w1 : t < 0
  · rw [if_pos w1]
    have hn : ¬ (t + 1 > 1) := by linarith
    rw [if_neg hn]
    exact ramp_bounds p q (t + 1) hpq (by linarith) (by linarith)
  · rw [if_neg w1]
    by_cases w2 : t > 1
    · rw [if_pos w2]
      exact ramp_bounds p q (t - 1) hpq (by linarith) (by linarith)
    · rw [if_neg w2]
      exact ramp_bounds p q t hpq (by linarith) (by linarith)

/-- Channel bounds for `hslToRgb`: for h in [0, 360] and s, l in [0, 100]
every rounded channel lies in [0, 255]. -/
theorem hslToRgb_channel_bounds (h s l : ℚ)
    (hh0 : 0 ≤ h) (hh1 : h ≤ 360) (hs0 : 0 ≤ s) (hs1 : s ≤ 100)
    (hl0 : 0 ≤ l) (hl1 : l ≤ 100) :
    (0 ≤ (hslToRgb h s l).r ∧ (hslToRgb h s l).r ≤ 255) ∧
    (0 ≤ (hslToRgb h s l).g ∧ (hslToRgb h s l).g ≤ 255) ∧
    (0 ≤ (hslToRgb h s l).b ∧ (hslToRgb h s l).b ≤ 255) := by
  have round01 : ∀ x : ℚ, 0 ≤ x → x ≤ 1 → 0 ≤ ((jsRound (x * 255) : ℤ) : ℚ) ∧
      ((jsRound (x * 255) : ℤ) : ℚ) ≤ 255 := by
    intro x hx0 hx1
    unfold jsRound
    constructor
    · have : (0 : ℤ) ≤ ⌊x * 255 + 1/2⌋ := by
        apply Int.le_floor.mpr
        push_cast
        nlinarith
      exact_mod_cast this
    · have : ⌊x * 255 + 1/2⌋ < (256 : ℤ) := by
        apply Int.floor_lt.mpr
        push_cast
        nlinarith
      have h255 : ⌊x * 255 + 1/2⌋ ≤ (255 : ℤ) := by omega
      exact_mod_cast h255
  simp only [hslToRgb]
  by_cases hs : s / 100 = 0
  · rw [if_pos hs]
    refine ⟨?x, ?x2, ?x3⟩ <;> exact round01 (l / 100) (by positivity) (by linarith)
  · rw [if_neg hs]
    set q := if l / 100 < 1/2 then l / 100 * (1 + s / 100)
             else l / 100 + s / 100 - l / 100 * (s / 100) with hq
    have hq1 : q ≤ 1 := by
      rw [hq]
      split_ifs with hcase
      · nlinarith
      · nlinarith
    have hp0 : 0 ≤ 2 * (l / 100) - q := by
      rw [hq]
      split_ifs with hcase
      · nlinarith
      · nlinarith
    have hpq : 2 * (l / 100) - q ≤ q := by
      rw [hq]
      split_ifs with hcase
      · nlinarith [mul_nonneg (by linarith : (0:ℚ) ≤ l/100) (by linarith : (0:ℚ) ≤ s/100)]
      · nlinarith [mul_nonneg (by linarith : (0:ℚ) ≤ 1 - l/100) (by linarith : (0:ℚ) ≤ s/100)]
    have hdiv0 : 0 ≤ h / 360 := by positivity
    have hdiv1 : h / 360 ≤ 1 := by
      rw [div_le_one (by norm_num : (0:ℚ) < 360)]
      exact hh1
    have chan : ∀ t : ℚ, -1 ≤ t → t ≤ 2 →
        0 ≤ ((jsRound (hue2rgb (2 * (l / 100) - q) q t * 255) : ℤ) : ℚ) ∧
        ((jsRound (hue2rgb (2 * (l / 100) - q) q t * 255) : ℤ) : ℚ) ≤ 255 := by
      intro t ht1 ht2
      obtain ⟨hlo, hhi⟩ := hue2rgb_bounds _ _ t hpq ht1 ht2
      exact round01 _ (le_trans hp0 hlo) (le_trans hhi hq1)
    refine ⟨chan _ (by linarith) (by linarith),
      chan _ (by linarith) (by linarith),
      chan _ (by linarith) (by linarith)⟩

end ColorUtility

namespace ColorUtility

/-- Rounding a scaled value of [0, 1] by an integer scale K stays in [0, K]. -/
theorem jsRound_scale_mem (K : ℤ) (x : ℚ) (hK : 0 < K) (hx0 : 0 ≤ x) (hx1 : x ≤ 1) :
    0 ≤ jsRound (x * (K : ℚ)) ∧ jsRound (x * (K : ℚ)) ≤ K := by
  unfold jsRound
  have hKQ : (0 : ℚ) < (K : ℚ) := by exact_mod_cast hK
  constructor
  · apply Int.le_floor.mpr
    push_cast
    nlinarith
  · have : ⌊x * (K : ℚ) + 1/2⌋ < K + 1 := by
      apply Int.floor_lt.mpr
      push_cast
      nlinarith
    omega

/-- Output ranges of `rgbToHsl`: for channels in [0, 255] the rounded hue is
in [0, 360] and saturation and lightness are in [0, 100]. -/
theorem rgbToHsl_range (r g b : ℚ)
    (hr0 : 0 ≤ r) (hr1 : r ≤ 255) (hg0 : 0 ≤ g) (hg1 : g ≤ 255)
    (hb0 : 0 ≤ b) (hb1 : b ≤ 255) :
    (0 ≤ (rgbToHsl r g b).h ∧ (rgbToHsl r g b).h ≤ 360) ∧
    (0 ≤ (rgbToHsl r g b).s ∧ (rgbToHsl r g b).s ≤ 100) ∧
    (0 ≤ (rgbToHsl r g b).l ∧ (rgbToHsl r g b).l ≤ 100) := by
  have h100 : ∀ x : ℚ, 0 ≤ x → x ≤ 1 →
      0 ≤ ((jsRound (x * 100) : ℤ) : ℚ) ∧ ((jsRound (x * 100) : ℤ) : ℚ) ≤ 100 := by
    intro x hx0 hx1
    have := jsRound_scale_mem 100 x (by norm_num) hx0 hx1
    constructor
    · exact_mod_cast this.1
    · exact_mod_cast this.2
  have h360 : ∀ x : ℚ, 0 ≤ x → x ≤ 1 →
      0 ≤ ((jsRound (x * 360) : ℤ) : ℚ) ∧ ((jsRound (x * 360) : ℤ) : ℚ) ≤ 360 := by
    intro x hx0 hx1
    have := jsRound_scale_mem 360 x (by norm_num) hx0 hx1
    constructor
    · exact_mod_cast this.1
    · exact_mod_cast this.2
  simp only [rgbToHsl]
  set nr := r / 255 with hnr
  set ng := g / 255 with hng
  set nb := b / 255 with hnb
  have hnr01 : 0 ≤ nr ∧ nr ≤ 1 := ⟨by positivity, by rw [hnr, div_le_one] <;> linarith⟩
  have hng01 : 0 ≤ ng ∧ ng ≤ 1 := ⟨by positivity, by rw [hng, div_le_one] <;> linarith⟩
  have hnb01 : 0 ≤ nb ∧ nb ≤ 1 := ⟨by positivity, by rw [hnb, div_le_one] <;> linarith⟩
  set mx := max nr (max ng nb) with hmx
  set mn := min nr (min ng nb) with hmn
  have hmx0 : 0 ≤ mx := le_max_of_le_left hnr01.1
  have hmx1 : mx ≤ 1 := max_le hnr01.2 (max_le hng01.2 hnb01.2)
  have hmn0 : 0 ≤ mn := le_min hnr01.1 (le_min hng01.1 hnb01.1)
  have hmn1 : mn ≤ 1 := min_le_of_left_le hnr01.2
  have hmnmx : mn ≤ mx := min_le_of_left_le (le_max_left _ _)
  have hlmem : 0 ≤ (mx + mn)/2 ∧ (mx + mn)/2 ≤ 1 := ⟨by linarith, by linarith⟩
  by_cases hd : mx - mn = 0
  · rw [if_pos hd]
    refine ⟨⟨le_refl 0, by norm_num⟩, ⟨le_refl 0, by norm_num⟩, ?_⟩
    exact h100 _ hlmem.1 hlmem.2
  · rw [if_neg hd]
    dsimp only
    have hdpos : 0 < mx - mn := by
      rcases lt_or_eq_of_le hmnmx with hlt | heq
      · linarith
      · exfalso; exact hd (by rw [heq]; ring)
    have hrmem : nr ≤ mx ∧ mn ≤ nr := ⟨le_max_left _ _, min_le_left _ _⟩
    have hgmem : ng ≤ mx ∧ mn ≤ ng :=
      ⟨le_trans (le_max_left _ _) (le_max_right _ _), le_trans (min_le_right _ _) (min_le_left _ _)⟩
    have hbmem : nb ≤ mx ∧ mn ≤ nb :=
      ⟨le_trans (le_max_right _ _) (le_max_right _ _),
       le_trans (min_le_right _ _) (min_le_right _ _)⟩
    refine ⟨?_, ?_, ?_⟩
    · -- hue component
      have hrat : ∀ X Y : ℚ, mn ≤ X → X ≤ mx → mn ≤ Y → Y ≤ mx →
          (X - Y) / (mx - mn) ≤ 1 ∧ -1 ≤ (X - Y) / (mx - mn) := by
        intro X Y hX2 hX1 hY2 hY1
        constructor
        · rw [div_le_one hdpos]; linarith
        · rw [le_div_iff₀ hdpos]; linarith
      split_ifs with c1 c2 c3
      · obtain ⟨hu, hl⟩ := hrat ng nb hgmem.2 hgmem.1 hbmem.2 hbmem.1
        have hng0 : (ng - nb) / (mx - mn) ≤ 0 :=
          div_nonpos_iff.mpr (Or.inr ⟨by linarith, by linarith⟩)
        exact h360 _ (by linarith) (by linarith)
      · obtain ⟨hu, hl⟩ := hrat ng nb hgmem.2 hgmem.1 hbmem.2 hbmem.1
        have hng0 : 0 ≤ (ng - nb) / (mx - mn) :=
          div_nonneg (by linarith) (le_of_lt hdpos)
        exact h360 _ (by linarith) (by linarith)
      · obtain ⟨hu, hl⟩ := hrat nb nr hbmem.2 hbmem.1 hrmem.2 hrmem.1
        exact h360 _ (by linarith) (by linarith)
      · obtain ⟨hu, hl⟩ := hrat nr ng hrmem.2 hrmem.1 hgmem.2 hgmem.1
        exact h360 _ (by linarith) (by linarith)
    · -- saturation component
      split_ifs with hcase
      · have hden : 0 < 2 - mx - mn := by
          by_cases hmx1e : mx = 1
          · have : mn < 1 := by
              rcases lt_or_eq_of_le hmn1 with hlt | heq
              · exact hlt
              · exfalso; apply hd; rw [hmx1e, heq]; ring
            linarith
          · have : mx < 1 := lt_of_le_of_ne hmx1 hmx1e
            linarith
        apply h100
        · positivity
        · rw [div_le_one hden]; linarith
      · have hden : 0 < mx + mn := by
          by_cases hmn0e : mn = 0
          · have : 0 < mx := by
              rcases lt_or_eq_of_le hmx0 with hlt | heq
              · exact hlt
              · exfalso; apply hd; rw [hmn0e, ← heq]; ring
            linarith
          · have : 0 < mn := lt_of_le_of_ne hmn0 (Ne.symm hmn0e)
            linarith
        apply h100
        · positivity
        · rw [div_le_one hden]; linarith
    · exact h100 _ hlmem.1 hlmem.2

end ColorUtility

namespace ColorUtility

/-- Rounding an integer-valued rational is the identity. -/
theorem jsRound_intCast (n : ℤ) : jsRound ((n : ℤ) : ℚ) = n := by
  unfold jsRound
  rw [Int.floor_eq_iff]
  constructor <;> push_cast <;> linarith

/-- The uppercase hexadecimal digit set. -/
def isUpperHexDigit (c : Char) : Bool := ("0123456789ABCDEF".data).contains c

/-- Boolean byte-level round trip: formatting a byte as two padded lowercase
hex digits, uppercasing, reparsing and checking the digit set. -/
def byteRoundtrip (n : ℕ) : Bool :=
  match (padStart2 (natToHexString n)).data.map Char.toUpper with
  | [c₁, c₂] => (hexByteVal c₁ c₂ == some n) && isUpperHexDigit c₁ && isUpperHexDigit c₂
  | _ => false

set_option maxRecDepth 10000 in
theorem byteRoundtrip_true : ∀ n : Fin 256, byteRoundtrip (n : ℕ) = true := by decide

end ColorUtility

namespace ColorUtility

/-- Unpacked byte-level format facts for an integer byte value. -/
theorem toHexByte_spec (n : ℤ) (h0 : 0 ≤ n) (h1 : n ≤ 255) :
    ∃ c₁ c₂, (toHexByte ((n : ℤ) : ℚ)).data.map Char.toUpper = [c₁, c₂] ∧
      hexByteVal c₁ c₂ = some n.toNat ∧
      isUpperHexDigit c₁ = true ∧ isUpperHexDigit c₂ = true := by
  have hb := byteRoundtrip_true ⟨n.toNat, by omega⟩
  have he : toHexByte ((n : ℤ) : ℚ) = padStart2 (natToHexString n.toNat) := by
    unfold toHexByte
    rw [jsRound_intCast]
    rw [if_neg (by omega : ¬ n < 0)]
  rw [he]
  unfold byteRoundtrip at hb
  simp only [Fin.val_mk] at hb
  revert hb
  cases hlist : (padStart2 (natToHexString n.toNat)).data.map Char.toUpper with
  | nil => intro hb; exact absurd hb (by simp)
  | cons c₁ t =>
    cases t with
    | nil => intro hb; exact absurd hb (by simp)
    | cons c₂ t₂ =>
      cases t₂ with
      | nil =>
        intro hb
        simp only [Bool.and_eq_true, beq_iff_eq] at hb
        exact ⟨c₁, c₂, rfl, hb.1.1, hb.1.2, hb.2⟩
      | cons c₃ t₃ => intro hb; exact absurd hb (by simp)

/-- The hex string produced by `rgbToHex` on integer channels in range:
a hash sign followed by six uppercase hexadecimal digits that parse back to
the three channels. -/
theorem rgbToHex_spec (r g b : ℤ)
    (hr0 : 0 ≤ r) (hr1 : r ≤ 255) (hg0 : 0 ≤ g) (hg1 : g ≤ 255)
    (hb0 : 0 ≤ b) (hb1 : b ≤ 255) :
    ∃ c₁ c₂ c₃ c₄ c₅ c₆,
      (rgbToHex ((r : ℤ) : ℚ) ((g : ℤ) : ℚ) ((b : ℤ) : ℚ)).data =
        '#' :: [c₁, c₂, c₃, c₄, c₅, c₆] ∧
      hexByteVal c₁ c₂ = some r.toNat ∧ hexByteVal c₃ c₄ = some g.toNat ∧
      hexByteVal c₅ c₆ = some b.toNat ∧
      (∀ c ∈ [c₁, c₂, c₃, c₄, c₅, c₆], isUpperHexDigit c = true) := by
  obtain ⟨a₁, a₂, ha, hpa, hua1, hua2⟩ := toHexByte_spec r hr0 hr1
  obtain ⟨b₁, b₂, hbb, hpb, hub1, hub2⟩ := toHexByte_spec g hg0 hg1
  obtain ⟨d₁, d₂, hd, hpd, hud1, hud2⟩ := toHexByte_spec b hb0 hb1
  refine ⟨a₁, a₂, b₁, b₂, d₁, d₂, ?_, hpa, hpb, hpd, ?_⟩
  · unfold rgbToHex toUpperString
    rw [show ("#" ++ toHexByte ((r : ℤ) : ℚ) ++ toHexByte ((g : ℤ) : ℚ) ++
          toHexByte ((b : ℤ) : ℚ)).data =
        "#".data ++ (toHexByte ((r : ℤ) : ℚ)).data ++ (toHexByte ((g : ℤ) : ℚ)).data ++
          (toHexByte ((b : ℤ) : ℚ)).data by
      rw [String.data_append, String.data_append, String.data_append]]
    simp only [List.map_append, ha, hbb, hd]
    rfl
  · intro c hc
    simp only [List.mem_cons, List.not_mem_nil, or_false] at hc
    rcases hc with h | h | h | h | h | h <;> subst h <;> assumption

end ColorUtility

namespace ColorUtility

/-- Parsing inverts formatting for integer channels in range. -/
theorem hexToRgb_rgbToHex (r g b : ℤ)
    (hr0 : 0 ≤ r) (hr1 : r ≤ 255) (hg0 : 0 ≤ g) (hg1 : g ≤ 255)
    (hb0 : 0 ≤ b) (hb1 : b ≤ 255) :
    hexToRgb (rgbToHex ((r : ℤ) : ℚ) ((g : ℤ) : ℚ) ((b : ℤ) : ℚ)) =
      some ⟨((r : ℤ) : ℚ), ((g : ℤ) : ℚ), ((b : ℤ) : ℚ)⟩ := by
  obtain ⟨c₁, c₂, c₃, c₄, c₅, c₆, hdata, hpa, hpb, hpd, -⟩ :=
    rgbToHex_spec r g b hr0 hr1 hg0 hg1 hb0 hb1
  unfold hexToRgb stripHash
  rw [hdata]
  simp only [hpa, hpb, hpd, Option.bind_eq_bind, Option.some_bind]
  have er : ((r.toNat : ℕ) : ℚ) = ((r : ℤ) : ℚ) := by exact_mod_cast Int.toNat_of_nonneg hr0
  have eg : ((g.toNat : ℕ) : ℚ) = ((g : ℤ) : ℚ) := by exact_mod_cast Int.toNat_of_nonneg hg0
  have eb : ((b.toNat : ℕ) : ℚ) = ((b : ℤ) : ℚ) := by exact_mod_cast Int.toNat_of_nonneg hb0
  simp [er, eg, eb]

end ColorUtility

namespace ColorUtility

theorem hue2rgb_q (p q t : ℚ) (h0 : 1/6 ≤ t) (h1 : t < 1/2) : hue2rgb p q t = q := by
  simp only [hue2rgb]
  rw [if_neg (by linarith : ¬ t < 0), if_neg (by linarith : ¬ t > 1),
    if_neg (by linarith : ¬ t < 1/6), if_pos h1]

theorem hue2rgb_q_hi (p q t : ℚ) (h0 : 7/6 ≤ t) (h1 : t ≤ 4/3) : hue2rgb p q t = q := by
  simp only [hue2rgb]
  rw [if_neg (by linarith : ¬ t < 0), if_pos (by linarith : t > 1),
    if_neg (by linarith : ¬ t - 1 < 1/6), if_pos (by linarith : t - 1 < 1/2)]

theorem hue2rgb_p (p q t : ℚ) (h0 : 2/3 ≤ t) (h1 : t ≤ 1) : hue2rgb p q t = p := by
  simp only [hue2rgb]
  rw [if_neg (by linarith : ¬ t < 0), if_neg (by linarith : ¬ t > 1),
    if_neg (by linarith : ¬ t < 1/6), if_neg (by linarith : ¬ t < 1/2),
    if_neg (by linarith : ¬ t < 2/3)]

theorem hue2rgb_p_neg (p q t : ℚ) (h0 : -1/3 ≤ t) (h1 : t < 0) : hue2rgb p q t = p := by
  simp only [hue2rgb]
  rw [if_pos h1, if_neg (by linarith : ¬ t + 1 > 1),
    if_neg (by linarith : ¬ t + 1 < 1/6), if_neg (by linarith : ¬ t + 1 < 1/2),
    if_neg (by linarith : ¬ t + 1 < 2/3)]

theorem jsRound_mono {x y : ℚ} (h : x ≤ y) : jsRound x ≤ jsRound y :=
  Int.floor_le_floor (by linarith)

theorem max3_min3 {x y z P Q : ℚ}
    (hx0 : P ≤ x) (hx1 : x ≤ Q) (hy0 : P ≤ y) (hy1 : y ≤ Q) (hz0 : P ≤ z) (hz1 : z ≤ Q)
    (hq : x = Q ∨ y = Q ∨ z = Q) (hp : x = P ∨ y = P ∨ z = P) :
    max x (max y z) = Q ∧ min x (min y z) = P := by
  constructor
  · apply le_antisymm (max_le hx1 (max_le hy1 hz1))
    rcases hq with h | h | h
    · rw [← h]; exact le_max_left _ _
    · rw [← h]; exact le_trans (le_max_left _ _) (le_max_right _ _)
    · rw [← h]; exact le_trans (le_max_right _ _) (le_max_right _ _)
  · apply le_antisymm
    · rcases hp with h | h | h
      · rw [← h]; exact min_le_left _ _
      · rw [← h]; exact le_trans (min_le_right _ _) (min_le_left _ _)
      · rw [← h]; exact le_trans (min_le_right _ _) (min_le_right _ _)
    · exact le_min hx0 (le_min hy0 hz0)

/-- The maximum and minimum rounded channels of `hslToRgb` are the rounded
`q` and `p` of the source's construction, whatever the hue. -/
theorem hslToRgb_max_min (h s l : ℚ)
    (hh0 : 0 ≤ h) (hh1 : h ≤ 360) (hs : ¬ s / 100 = 0)
    (hsl : 2 * (l/100) - (if l/100 < 1/2 then l/100 * (1 + s/100)
              else l/100 + s/100 - l/100 * (s/100)) ≤
           (if l/100 < 1/2 then l/100 * (1 + s/100)
              else l/100 + s/100 - l/100 * (s/100))) :
    max (hslToRgb h s l).r (max (hslToRgb h s l).g (hslToRgb h s l).b) =
      ((jsRound ((if l/100 < 1/2 then l/100 * (1 + s/100)
          else l/100 + s/100 - l/100 * (s/100)) * 255) : ℤ) : ℚ) ∧
    min (hslToRgb h s l).r (min (hslToRgb h s l).g (hslToRgb h s l).b) =
      ((jsRound ((2 * (l/100) - (if l/100 < 1/2 then l/100 * (1 + s/100)
          else l/100 + s/100 - l/100 * (s/100))) * 255) : ℤ) : ℚ) := by
  simp only [hslToRgb]
  rw [if_neg hs]
  set q := if l/100 < 1/2 then l/100 * (1 + s/100) else l/100 + s/100 - l/100 * (s/100) with hqdef
  set p := 2 * (l/100) - q with hpdef
  have hu0 : 0 ≤ h / 360 := by positivity
  have hu1 : h / 360 ≤ 1 := by
    rw [div_le_one (by norm_num : (0:ℚ) < 360)]
    exact hh1
  have hbr : ∀ t : ℚ, -1 ≤ t → t ≤ 2 → p ≤ hue2rgb p q t ∧ hue2rgb p q t ≤ q :=
    fun t a b => hue2rgb_bounds p q t hsl a b
  have key : (hue2rgb p q (h/360 + 1/3) = q ∨ hue2rgb p q (h/360) = q ∨
      hue2rgb p q (h/360 - 1/3) = q) ∧
      (hue2rgb p q (h/360 + 1/3) = p ∨ hue2rgb p q (h/360) = p ∨
      hue2rgb p q (h/360 - 1/3) = p) := by
    rcases lt_or_le (h/360) (1/6 : ℚ) with u1 | u1
    · exact ⟨Or.inl (hue2rgb_q p q _ (by linarith) (by linarith)),
        Or.inr (Or.inr (hue2rgb_p_neg p q _ (by linarith) (by linarith)))⟩
    · rcases lt_or_le (h/360) (1/3 : ℚ) with u2 | u2
      · exact ⟨Or.inr (Or.inl (hue2rgb_q p q _ (by linarith) (by linarith))),
          Or.inr (Or.inr (hue2rgb_p_neg p q _ (by linarith) (by linarith)))⟩
      · rcases lt_or_le (h/360) (1/2 : ℚ) with u3 | u3
        · exact ⟨Or.inr (Or.inl (hue2rgb_q p q _ (by linarith) (by linarith))),
            Or.inl (hue2rgb_p p q _ (by linarith) (by linarith))⟩
        · rcases lt_or_le (h/360) (2/3 : ℚ) with u4 | u4
          · exact ⟨Or.inr (Or.inr (hue2rgb_q p q _ (by linarith) (by linarith))),
              Or.inl (hue2rgb_p p q _ (by linarith) (by linarith))⟩
          · rcases lt_or_le (h/360) (5/6 : ℚ) with u5 | u5
            · exact ⟨Or.inr (Or.inr (hue2rgb_q p q _ (by linarith) (by linarith))),
                Or.inr (Or.inl (hue2rgb_p p q _ (by linarith) (by linarith)))⟩
            · exact ⟨Or.inl (hue2rgb_q_hi p q _ (by linarith) (by linarith)),
                Or.inr (Or.inl (hue2rgb_p p q _ (by linarith) (by linarith)))⟩
  obtain ⟨hq, hp⟩ := key
  have hb1 := hbr (h/360 + 1/3) (by linarith) (by linarith)
  have hb2 := hbr (h/360) (by linarith) (by linarith)
  have hb3 := hbr (h/360 - 1/3) (by linarith) (by linarith)
  have mono255 : ∀ a b : ℚ, a ≤ b → ((jsRound (a * 255) : ℤ) : ℚ) ≤ ((jsRound (b * 255) : ℤ) : ℚ) := by
    intro a b hab
    exact_mod_cast jsRound_mono (by linarith)
  refine max3_min3 (mono255 _ _ hb1.1) (mono255 _ _ hb1.2) (mono255 _ _ hb2.1)
    (mono255 _ _ hb2.2) (mono255 _ _ hb3.1) (mono255 _ _ hb3.2) ?_ ?_
  · rcases hq with hh | hh | hh
    · exact Or.inl (by rw [hh])
    · exact Or.inr (Or.inl (by rw [hh]))
    · exact Or.inr (Or.inr (by rw [hh]))
  · rcases hp with hh | hh | hh
    · exact Or.inl (by rw [hh])
    · exact Or.inr (Or.inl (by rw [hh]))
    · exact Or.inr (Or.inr (by rw [hh]))

end ColorUtility

namespace ColorUtility

/-- The channels of `hslToRgb` are integer casts. -/
theorem hslToRgb_as_cast (h s l : ℚ) :
    ∃ R G B : ℤ, hslToRgb h s l = ⟨((R : ℤ) : ℚ), ((G : ℤ) : ℚ), ((B : ℤ) : ℚ)⟩ := by
  simp only [hslToRgb]
  split_ifs <;> exact ⟨_, _, _, rfl⟩

/-- Parsing a generator-produced hex recovers the rounded channels, whose
maximum and minimum are the rounded `q` and `p`. -/
theorem hslHex_parse_spec (h s l : ℚ) (Q P : ℤ)
    (hh0 : 0 ≤ h) (hh1 : h ≤ 360)
    (hs : ¬ s / 100 = 0) (hs0 : 0 ≤ s) (hs1 : s ≤ 100) (hl0 : 0 ≤ l) (hl1 : l ≤ 100)
    (hsl : 2 * (l/100) - (if l/100 < 1/2 then l/100 * (1 + s/100)
              else l/100 + s/100 - l/100 * (s/100)) ≤
           (if l/100 < 1/2 then l/100 * (1 + s/100)
              else l/100 + s/100 - l/100 * (s/100)))
    (hQ : jsRound ((if l/100 < 1/2 then l/100 * (1 + s/100)
              else l/100 + s/100 - l/100 * (s/100)) * 255) = Q)
    (hP : jsRound ((2 * (l/100) - (if l/100 < 1/2 then l/100 * (1 + s/100)
              else l/100 + s/100 - l/100 * (s/100))) * 255) = P) :
    ∃ R G B : ℤ,
      PaletteGenerator.hslHex h s l = rgbToHex ((R : ℤ) : ℚ) ((G : ℤ) : ℚ) ((B : ℤ) : ℚ) ∧
      hexToRgb (PaletteGenerator.hslHex h s l) = some ⟨((R : ℤ) : ℚ), ((G : ℤ) : ℚ), ((B : ℤ) : ℚ)⟩ ∧
      max R (max G B) = Q ∧ min R (min G B) = P ∧
      0 ≤ R ∧ R ≤ 255 ∧ 0 ≤ G ∧ G ≤ 255 ∧ 0 ≤ B ∧ B ≤ 255 := by
  obtain ⟨R, G, B, hRGB⟩ := hslToRgb_as_cast h s l
  obtain ⟨⟨br0, br1⟩, ⟨bg0, bg1⟩, ⟨bb0, bb1⟩⟩ :=
    hslToRgb_channel_bounds h s l hh0 hh1 hs0 hs1 hl0 hl1
  rw [hRGB] at br0 br1 bg0 bg1 bb0 bb1
  dsimp only at br0 br1 bg0 bg1 bb0 bb1
  have hR0 : 0 ≤ R := by exact_mod_cast br0
  have hR1 : R ≤ 255 := by exact_mod_cast br1
  have hG0 : 0 ≤ G := by exact_mod_cast bg0
  have hG1 : G ≤ 255 := by exact_mod_cast bg1
  have hB0 : 0 ≤ B := by exact_mod_cast bb0
  have hB1 : B ≤ 255 := by exact_mod_cast bb1
  obtain ⟨hmax, hmin⟩ := hslToRgb_max_min h s l hh0 hh1 hs hsl
  rw [hRGB, hQ] at hmax
  rw [hRGB, hP] at hmin
  dsimp only at hmax hmin
  refine ⟨R, G, B, ?_, ?_, ?_, ?_, hR0, hR1, hG0, hG1, hB0, hB1⟩
  · unfold PaletteGenerator.hslHex
    rw [hRGB]
  · unfold PaletteGenerator.hslHex
    rw [hRGB]
    exact hexToRgb_rgbToHex R G B hR0 hR1 hG0 hG1 hB0 hB1
  · have : ((max R (max G B) : ℤ) : ℚ) = ((Q : ℤ) : ℚ) := by
      rw [Int.cast_max, Int.cast_max]
      exact hmax
    exact_mod_cast this
  · have : ((min R (min G B) : ℤ) : ℚ) = ((P : ℤ) : ℚ) := by
      rw [Int.cast_min, Int.cast_min]
      exact hmin
    exact_mod_cast this

end ColorUtility

namespace ColorUtility

/-- Saturation of the integer mirror from the channel extremes. -/
def sOfQP (Q P : ℤ) : ℤ :=
  if Q - P = 0 then 0
  else if 255 < Q + P then jsRoundZ ((Q - P) * 100) (510 - (Q + P)).toNat
  else jsRoundZ ((Q - P) * 100) (Q + P).toNat

/-- Lightness of the integer mirror from the channel extremes. -/
def lOfQP (Q P : ℤ) : ℤ := jsRoundZ ((Q + P) * 100) 510

theorem rgbToHslZ_s (R G B : ℤ) :
    (rgbToHslZ R G B).2.1 = sOfQP (max R (max G B)) (min R (min G B)) := by
  simp only [rgbToHslZ, sOfQP]
  split_ifs <;> rfl

theorem rgbToHslZ_l (R G B : ℤ) :
    (rgbToHslZ R G B).2.2 = lOfQP (max R (max G B)) (min R (min G B)) := by
  simp only [rgbToHslZ, lOfQP]
  split_ifs <;> rfl

/-- The measured saturation, lightness and hue range of a generator colour:
parsing `hslHex h s l` and re-measuring yields `sOfQP Q P` and `lOfQP Q P`
where `Q`/`P` are the rounded `q`/`p` values, and a hue in [0, 360]. -/
theorem measured_color (h s l : ℚ) (Q P : ℤ)
    (hh0 : 0 ≤ h) (hh1 : h ≤ 360)
    (hs : ¬ s / 100 = 0) (hs0 : 0 ≤ s) (hs1 : s ≤ 100) (hl0 : 0 ≤ l) (hl1 : l ≤ 100)
    (hsl : 2 * (l/100) - (if l/100 < 1/2 then l/100 * (1 + s/100)
              else l/100 + s/100 - l/100 * (s/100)) ≤
           (if l/100 < 1/2 then l/100 * (1 + s/100)
              else l/100 + s/100 - l/100 * (s/100)))
    (hQ : jsRound ((if l/100 < 1/2 then l/100 * (1 + s/100)
              else l/100 + s/100 - l/100 * (s/100)) * 255) = Q)
    (hP : jsRound ((2 * (l/100) - (if l/100 < 1/2 then l/100 * (1 + s/100)
              else l/100 + s/100 - l/100 * (s/100))) * 255) = P) :
    ∀ rgb, hexToRgb (PaletteGenerator.hslHex h s l) = some rgb →
      (rgbToHsl rgb.r rgb.g rgb.b).s = ((sOfQP Q P : ℤ) : ℚ) ∧
      (rgbToHsl rgb.r rgb.g rgb.b).l = ((lOfQP Q P : ℤ) : ℚ) ∧
      0 ≤ (rgbToHsl rgb.r rgb.g rgb.b).h ∧ (rgbToHsl rgb.r rgb.g rgb.b).h ≤ 360 := by
  obtain ⟨R, G, B, hfmt, hparse, hmax, hmin, hR0, hR1, hG0, hG1, hB0, hB1⟩ :=
    hslHex_parse_spec h s l Q P hh0 hh1 hs hs0 hs1 hl0 hl1 hsl hQ hP
  intro rgb hrgb
  rw [hparse] at hrgb
  have hrgb2 : rgb = ⟨((R : ℤ) : ℚ), ((G : ℤ) : ℚ), ((B : ℤ) : ℚ)⟩ := (Option.some.inj hrgb).symm
  subst hrgb2
  dsimp only
  have hZ := rgbToHsl_eq_Z R G B hR0 hG0 hB0 hR1 hG1 hB1
  rw [hZ]
  dsimp only
  rw [rgbToHslZ_s, rgbToHslZ_l, hmax, hmin]
  have hrange := rgbToHsl_range ((R : ℤ) : ℚ) ((G : ℤ) : ℚ) ((B : ℤ) : ℚ)
    (by exact_mod_cast hR0) (by exact_mod_cast hR1) (by exact_mod_cast hG0)
    (by exact_mod_cast hG1) (by exact_mod_cast hB0) (by exact_mod_cast hB1)
  rw [hZ] at hrange
  dsimp only at hrange
  exact ⟨rfl, rfl, hrange.1.1, hrange.1.2⟩

end ColorUtility

namespace PaletteGenerator

theorem tmod_neg_dividend (a b : ℤ) : (-a).tmod b = -(a.tmod b) := by
  simp [Int.tmod_def, Int.neg_tdiv]
  ring

theorem tmod_natAbs_lt (a b : ℤ) (hb : 0 < b) : ((a.tmod b).natAbs : ℤ) < b := by
  rcases le_or_lt 0 a with ha | ha
  · have h0 := Int.tmod_nonneg b ha
    have h1 := Int.tmod_lt_of_pos a hb
    omega
  · have h2 : (-a).tmod b = -(a.tmod b) := tmod_neg_dividend a b
    have h0 := Int.tmod_nonneg b (by omega : (0:ℤ) ≤ -a)
    have h1 := Int.tmod_lt_of_pos (-a) hb
    omega

theorem typeHue_mem (appType : String) : 30 ≤ typeHue appType ∧ typeHue appType ≤ 350 := by
  unfold typeHue
  split_ifs <;> norm_num

/-- Each step of the source's purpose hash equals the 32-bit wrap of
`31 * hash + charCode`: the shifted form `(hash << 5) - hash` agrees with
`31 * hash` modulo 2^32. -/
theorem hashStep_eq_spec (h : ℤ) (c : Char) :
    hashStep h c = toInt32 (31 * h + (c.toNat : ℤ)) := by
  unfold hashStep toInt32
  omega

theorem purposeHash_eq_spec (purpose : String) :
    purposeHash purpose =
      purpose.data.foldl (fun h c => toInt32 (31 * h + (c.toNat : ℤ))) 0 := by
  unfold purposeHash
  have : hashStep = fun h c => toInt32 (31 * h + (c.toNat : ℤ)) :=
    funext fun h => funext fun c => hashStep_eq_spec h c
  rw [this]

theorem generateBaseHueNum_range (appType purpose : String) :
    0 ≤ generateBaseHueNum appType purpose ∧ generateBaseHueNum appType purpose < 360 := by
  unfold generateBaseHueNum
  obtain ⟨ht1, ht2⟩ := typeHue_mem appType
  have hv := tmod_natAbs_lt (purposeHash purpose) 60 (by norm_num)
  have hnn : (0:ℤ) ≤ ((purposeHash purpose).tmod 60).natAbs := by positivity
  rw [Int.tmod_eq_emod (by omega) (by norm_num : (0:ℤ) ≤ 360)]
  omega

end PaletteGenerator

/-- C9 (amended): the integer base-hue formula holds exactly when the type
lookup misses the `Object.prototype` chain. For every appType that is not a
prototype property name, `_generateBaseHue` returns the integer
`(typeHue + variation + 360) mod 360` in [0, 360), where `typeHue` is the
own `typeHueMap` entry (200 for other unmapped types), `variation =
|hash mod 60| - 30` lies in [-30, 29], and `hash` is the rolling hash
`hash * 31 + charCode` wrapped to 32-bit signed semantics at each step. For
a prototype property name (`constructor`, `toString`, ...) the object
lookup yields an inherited truthy value, the `|| 200` fallback never fires,
and the result is NaN rather than an integer. -/
theorem C9_generateBaseHue_spec (appType purpose : String) :
    (appType ∉ PaletteGenerator.protoKeys →
      PaletteGenerator.generateBaseHue appType purpose =
        some (PaletteGenerator.generateBaseHueNum appType purpose) ∧
      (0 ≤ PaletteGenerator.generateBaseHueNum appType purpose ∧
        PaletteGenerator.generateBaseHueNum appType purpose < 360) ∧
      PaletteGenerator.generateBaseHueNum appType purpose =
        (PaletteGenerator.typeHue appType +
          (((((purpose.data.foldl (fun h c => toInt32 (31 * h + (c.toNat : ℤ))) 0).tmod 60).natAbs : ℤ) - 30) + 360)).tmod 360 ∧
      (-30 ≤ ((((purpose.data.foldl (fun h c => toInt32 (31 * h + (c.toNat : ℤ))) 0).tmod 60).natAbs : ℤ) - 30) ∧
        ((((purpose.data.foldl (fun h c => toInt32 (31 * h + (c.toNat : ℤ))) 0).tmod 60).natAbs : ℤ) - 30) ≤ 29) ∧
      (¬ (appType = "web-dashboard" ∨ appType = "mobile-app" ∨ appType = "portfolio" ∨
          appType = "e-commerce" ∨ appType = "saas" ∨ appType = "professional" ∨
          appType = "playful") → PaletteGenerator.typeHue appType = 200)) ∧
    (appType ∈ PaletteGenerator.protoKeys →
      PaletteGenerator.generateBaseHue appType purpose = none) := by
  constructor
  · intro hA
    refine ⟨?_, PaletteGenerator.generateBaseHueNum_range appType purpose, ?_, ?_, ?_⟩
    · unfold PaletteGenerator.generateBaseHue
      rw [if_neg hA]
    · simp only [PaletteGenerator.generateBaseHueNum]
      rw [PaletteGenerator.purposeHash_eq_spec]
      congr 1
      omega
    · have hv := PaletteGenerator.tmod_natAbs_lt
        (purpose.data.foldl (fun h c => toInt32 (31 * h + (c.toNat : ℤ))) 0) 60 (by norm_num)
      have hnn : (0:ℤ) ≤ ((purpose.data.foldl (fun h c => toInt32 (31 * h + (c.toNat : ℤ))) 0).tmod 60).natAbs := by
        positivity
      omega
    · intro hmem
      unfold PaletteGenerator.typeHue
      push_neg at hmem
      obtain ⟨h1, h2, h3, h4, h5, h6, h7⟩ := hmem
      rw [if_neg h1, if_neg h2, if_neg h3, if_neg h4, if_neg h5, if_neg h6, if_neg h7]
  · intro hA
    unfold PaletteGenerator.generateBaseHue
    rw [if_pos hA]

/-- Witness: both branches of the base-hue specification at concrete
inputs. -/
theorem C9_generateBaseHue_witness :
    ("mobile-app" ∉ PaletteGenerator.protoKeys ∧
      PaletteGenerator.generateBaseHue "mobile-app" "shop" =
        some (PaletteGenerator.generateBaseHueNum "mobile-app" "shop")) ∧
    ("toString" ∈ PaletteGenerator.protoKeys ∧
      PaletteGenerator.generateBaseHue "toString" "shop" = none) :=
  ⟨⟨by decide, ((C9_generateBaseHue_spec "mobile-app" "shop").1 (by decide)).1⟩,
   ⟨by decide, (C9_generateBaseHue_spec "toString" "shop").2 (by decide)⟩⟩

/-- C9 counterexample: at appType "constructor" (an `Object.prototype`
property name) `_generateBaseHue` returns NaN, not an integer in [0, 360);
with empty purpose the claimed 200-fallback formula would give 170. -/
theorem C9_counterexample :
    PaletteGenerator.generateBaseHue "constructor" "" = none ∧
    PaletteGenerator.generateBaseHue "constructor" "" ≠
      some (PaletteGenerator.generateBaseHueNum "constructor" "") ∧
    PaletteGenerator.generateBaseHueNum "constructor" "" = 170 := by
  refine ⟨?_, ?_, ?_⟩ <;> decide

attribute [local semireducible] Rat.add Rat.mul Rat.sub Rat.inv in
set_option maxRecDepth 10000 in
/-- C7: the RGB-HSL round trip claimed to stay within two units per channel
moves the red channel by three at the input (165, 11, 11):
`rgbToHsl 165 11 11 = (0, 88, 35)` and `hslToRgb 0 88 35 = (168, 11, 11)`. -/
theorem C7_roundtrip_exceeds_two :
    ColorUtility.rgbToHsl 165 11 11 = ⟨0, 88, 35⟩ ∧
    ColorUtility.hslToRgb (ColorUtility.rgbToHsl 165 11 11).h
        (ColorUtility.rgbToHsl 165 11 11).s (ColorUtility.rgbToHsl 165 11 11).l =
      ⟨168, 11, 11⟩ ∧
    ¬ ((ColorUtility.hslToRgb (ColorUtility.rgbToHsl 165 11 11).h
        (ColorUtility.rgbToHsl 165 11 11).s (ColorUtility.rgbToHsl 165 11 11).l).r
        - 165 ≤ 2) := by
  decide

attribute [local semireducible] Rat.add Rat.mul Rat.sub Rat.inv in
set_option maxRecDepth 10000 in
/-- C2 counterexample: the professional adjustment does not leave the text
hex unchanged on a pastel palette: the pastel text `#2A2A2A` is re-encoded
as `#292929` by the RGB-HSL-RGB round trip. -/
theorem C2_counterexample :
    (PaletteGenerator.applyProfessionalAdjustments
        (PaletteGenerator.generatePastelPalette 190)).colors.text.hex = "#292929" ∧
    (PaletteGenerator.generatePastelPalette 190).colors.text.hex = "#2A2A2A" ∧
    (PaletteGenerator.applyProfessionalAdjustments
        (PaletteGenerator.generatePastelPalette 190)).colors.text.hex ≠
      (PaletteGenerator.generatePastelPalette 190).colors.text.hex := by
  decide

namespace ColorUtility

/-- The canonical uppercase character of one hexadecimal digit. -/
def upperHexChar (d : ℕ) : Char :=
  ['0','1','2','3','4','5','6','7','8','9','A','B','C','D','E','F'].getD d ' '

theorem hexDigitVal_lt (c : Char) (d : ℕ) (h : hexDigitVal c = some d) : d < 16 := by
  unfold hexDigitVal at h
  split at h <;> simp_all <;> omega

theorem hexDigitVal_toUpper (c : Char) (d : ℕ) (h : hexDigitVal c = some d) :
    c.toUpper = upperHexChar d := by
  unfold hexDigitVal at h
  split at h <;> simp_all <;> subst h <;> decide

set_option maxRecDepth 10000 in
theorem formatByte_upper : ∀ n : Fin 256,
    (padStart2 (natToHexString (n : ℕ))).data.map Char.toUpper =
      [upperHexChar ((n : ℕ) / 16), upperHexChar ((n : ℕ) % 16)] := by decide

end ColorUtility

namespace ColorUtility

/-- Well-formedness of a claim-level hex string: after stripping an optional
leading hash, exactly six characters, all hexadecimal digits. -/
def wellFormedHex (s : String) : Bool :=
  (stripHash s).length == 6 && (stripHash s).all fun c => (hexDigitVal c).isSome

theorem hexByteVal_of_digits {c₁ c₂ : Char} {d₁ d₂ : ℕ}
    (h₁ : hexDigitVal c₁ = some d₁) (h₂ : hexDigitVal c₂ = some d₂) :
    hexByteVal c₁ c₂ = some (16 * d₁ + d₂) := by
  unfold hexByteVal
  rw [h₁, h₂]
  rfl

/-- Formatting one parsed byte recovers the two uppercased digit characters. -/
theorem toHexByte_of_digits {c₁ c₂ : Char} {d₁ d₂ : ℕ}
    (h₁ : hexDigitVal c₁ = some d₁) (h₂ : hexDigitVal c₂ = some d₂) :
    (toHexByte (((16 * d₁ + d₂ : ℕ) : ℕ) : ℚ)).data.map Char.toUpper =
      [c₁.toUpper, c₂.toUpper] := by
  have hd₁ := hexDigitVal_lt c₁ d₁ h₁
  have hd₂ := hexDigitVal_lt c₂ d₂ h₂
  have hcast : (((16 * d₁ + d₂ : ℕ) : ℕ) : ℚ) = (((16 * d₁ + d₂ : ℕ) : ℤ) : ℚ) := by
    push_cast
    ring
  have hjs : jsRound (((16 * d₁ + d₂ : ℕ) : ℕ) : ℚ) = ((16 * d₁ + d₂ : ℕ) : ℤ) := by
    rw [hcast, jsRound_intCast]
  have hfmt : toHexByte (((16 * d₁ + d₂ : ℕ) : ℕ) : ℚ) =
      padStart2 (natToHexString (16 * d₁ + d₂)) := by
    unfold toHexByte
    rw [hjs]
    rw [if_neg (by omega : ¬ ((16 * d₁ + d₂ : ℕ) : ℤ) < 0)]
    congr 1
  rw [hfmt, formatByte_upper ⟨16 * d₁ + d₂, by omega⟩]
  have e1 : (16 * d₁ + d₂) / 16 = d₁ := by omega
  have e2 : (16 * d₁ + d₂) % 16 = d₂ := by omega
  rw [e1, e2, ← hexDigitVal_toUpper c₁ d₁ h₁, ← hexDigitVal_toUpper c₂ d₂ h₂]

end ColorUtility

/-- C6: for every well-formed hex string (optional leading hash, six
hexadecimal digits in either case), `rgbToHex` applied to the three channels
of `hexToRgb` returns the string uppercase-normalized: a hash sign followed
by the six digits converted to uppercase. -/
theorem C6_hex_roundtrip (hx : String)
    (hwf : ColorUtility.wellFormedHex hx = true) :
    ∃ rgb, ColorUtility.hexToRgb hx = some rgb ∧
      ColorUtility.rgbToHex rgb.r rgb.g rgb.b =
        "#" ++ String.mk ((ColorUtility.stripHash hx).map Char.toUpper) := by
  open ColorUtility in
  have hwf2 := hwf
  unfold wellFormedHex at hwf2
  rw [Bool.and_eq_true] at hwf2
  obtain ⟨hlen, hall⟩ := hwf2
  rcases hsl : stripHash hx with
      _ | ⟨c₁, _ | ⟨c₂, _ | ⟨c₃, _ | ⟨c₄, _ | ⟨c₅, _ | ⟨c₆, _ | ⟨c₇, rest⟩⟩⟩⟩⟩⟩⟩ <;>
    rw [hsl] at hlen hall <;>
    simp only [List.length_nil, List.length_cons, beq_iff_eq] at hlen <;>
    first
      | omega
      | skip
  simp only [List.all_cons, List.all_nil, Bool.and_eq_true, Option.isSome_iff_exists] at hall
  obtain ⟨⟨d₁, h₁⟩, ⟨d₂, h₂⟩, ⟨d₃, h₃⟩, ⟨d₄, h₄⟩, ⟨d₅, h₅⟩, ⟨d₆, h₆⟩, -⟩ := hall
  refine ⟨⟨((16 * d₁ + d₂ : ℕ) : ℚ), ((16 * d₃ + d₄ : ℕ) : ℚ), ((16 * d₅ + d₆ : ℕ) : ℚ)⟩, ?_, ?_⟩
  · unfold hexToRgb
    rw [hsl]
    dsimp only
    rw [hexByteVal_of_digits h₁ h₂, hexByteVal_of_digits h₃ h₄, hexByteVal_of_digits h₅ h₆]
    rfl
  · unfold rgbToHex toUpperString
    have e : ("#" ++ toHexByte ((16 * d₁ + d₂ : ℕ) : ℚ) ++ toHexByte ((16 * d₃ + d₄ : ℕ) : ℚ) ++
          toHexByte ((16 * d₅ + d₆ : ℕ) : ℚ)).data =
        '#' :: ((toHexByte ((16 * d₁ + d₂ : ℕ) : ℚ)).data ++
          (toHexByte ((16 * d₃ + d₄ : ℕ) : ℚ)).data ++
          (toHexByte ((16 * d₅ + d₆ : ℕ) : ℚ)).data) := by
      rw [String.data_append, String.data_append, String.data_append]
      rfl
    rw [e]
    have h12 := toHexByte_of_digits h₁ h₂
    have h34 := toHexByte_of_digits h₃ h₄
    have h56 := toHexByte_of_digits h₅ h₆
    have edata : (('#' :: ((toHexByte ((16 * d₁ + d₂ : ℕ) : ℚ)).data ++
          (toHexByte ((16 * d₃ + d₄ : ℕ) : ℚ)).data ++
          (toHexByte ((16 * d₅ + d₆ : ℕ) : ℚ)).data)).map Char.toUpper) =
        '#' :: [c₁.toUpper, c₂.toUpper, c₃.toUpper, c₄.toUpper, c₅.toUpper, c₆.toUpper] := by
      simp only [List.map_cons, List.map_append, h12, h34, h56]
      rfl
    rw [edata]
    rfl

/-- Witness: the round-trip at the concrete well-formed string "#ff5733". -/
theorem C6_hex_roundtrip_witness :
    ColorUtility.wellFormedHex "#ff5733" = true ∧
    (∃ rgb, ColorUtility.hexToRgb "#ff5733" = some rgb ∧
      ColorUtility.rgbToHex rgb.r rgb.g rgb.b =
        "#" ++ String.mk ((ColorUtility.stripHash "#ff5733").map Char.toUpper)) :=
  ⟨by decide, C6_hex_roundtrip "#ff5733" (by decide)⟩

namespace AccessibilityChecker

/-- Contrast is symmetric in its two arguments: `max`/`min` do not depend on
the argument order. Shared helper for the symmetry and swap-closure results. -/
theorem contrast_comm (a b : String) :
    calculateContrastRatio a b = calculateContrastRatio b a := by
  unfold calculateContrastRatio
  cases getRelativeLuminance a <;> cases getRelativeLuminance b <;>
    simp [max_comm, min_comm]

/-- Rounding to two decimals preserves the WCAG AA floor. -/
theorem roundRatio_AA {r : ℝ} (h : 4.5 ≤ r) : 4.5 ≤ roundRatio r := by
  unfold roundRatio
  have h450 : (450 : ℤ) ≤ ⌊r * 100 + 1/2⌋ := by
    rw [Int.le_floor]
    push_cast
    nlinarith
  have : ((450 : ℤ) : ℝ) ≤ (⌊r * 100 + 1/2⌋ : ℝ) := by exact_mod_cast h450
  nlinarith

end AccessibilityChecker

/-- C8: `calculateContrastRatio` is symmetric: for every pair of hex strings
(in particular every pair of well-formed ones), swapping the two arguments
never changes the result. -/
theorem C8_contrast_symmetric (a b : String) :
    AccessibilityChecker.calculateContrastRatio a b =
      AccessibilityChecker.calculateContrastRatio b a :=
  AccessibilityChecker.contrast_comm a b

/-- C4: every element of `findAccessiblePairs palette` reports a ratio of at
least 4.5; a pair below the WCAG AA floor is never included. -/
theorem C4_pairs_ratio_floor (palette : Palette) :
    (AccessibilityChecker.findAccessiblePairs palette).Forall
      fun p => 4.5 ≤ p.ratio := by
  rw [List.forall_iff_forall_mem]
  intro p hp
  simp only [AccessibilityChecker.findAccessiblePairs, List.mem_flatMap,
    List.mem_filterMap] at hp
  obtain ⟨i, -, j, -, hij⟩ := hp
  split at hij
  · exact absurd hij (by simp)
  · split at hij
    · exact absurd hij (by simp)
    · rename_i r hr
      split at hij
      · rename_i hAA
        obtain rfl := Option.some_injective _ hij
        exact AccessibilityChecker.roundRatio_AA hAA
      · exact absurd hij (by simp)

namespace AccessibilityChecker

/-- Swapping the text and background roles of a reported pair. -/
def swapPair (p : AccessiblePair) : AccessiblePair := ⟨p.background, p.text, p.ratio⟩

theorem swapPair_swapPair (p : AccessiblePair) : swapPair (swapPair p) = p := rfl

open Classical in
/-- One cell of the index grid enumerated by `findAccessiblePairs`. -/
noncomputable def pairCell (entries : List (String × Color)) (i j : ℕ) :
    Option AccessiblePair :=
  if i = j then none
  else
    let textHex := (entries.getD i default).2.hex
    let bgHex := (entries.getD j default).2.hex
    match calculateContrastRatio textHex bgHex with
    | none => none
    | some r => if meetsWCAG_AA r then some ⟨textHex, bgHex, roundRatio r⟩ else none

theorem findAccessiblePairs_eq_grid (palette : Palette) :
    findAccessiblePairs palette =
      (List.range 6).flatMap fun i =>
        (List.range 6).filterMap fun j =>
          pairCell (colorEntries palette.colors) i j := rfl

theorem pairCell_swap (entries : List (String × Color)) (i j : ℕ) :
    pairCell entries j i = (pairCell entries i j).map swapPair := by
  unfold pairCell
  by_cases h : i = j
  · subst h
    simp
  · rw [if_neg (Ne.symm h), if_neg h]
    dsimp only
    rw [contrast_comm]
    cases calculateContrastRatio ((entries.getD i default).2.hex)
        ((entries.getD j default).2.hex) with
    | none => rfl
    | some r =>
      dsimp only
      by_cases hAA : meetsWCAG_AA r
      · rw [if_pos hAA, if_pos hAA]
        rfl
      · rw [if_neg hAA, if_neg hAA]
        rfl

theorem filterMap_eq_flatMap_toList {α β : Type _} (f : α → Option β) (l : List α) :
    l.filterMap f = l.flatMap fun a => (f a).toList := by
  induction l with
  | nil => rfl
  | cons a l ih => cases h : f a <;> simp [List.filterMap_cons, h, ih]

theorem option_toList_map {α β : Type _} (f : α → β) (o : Option α) :
    (o.map f).toList = o.toList.map f := by
  cases o <;> rfl

/-- The result of `findAccessiblePairs` is a permutation of its own image
under the text/background swap. -/
theorem findAccessiblePairs_swap_perm (palette : Palette) :
    ((findAccessiblePairs palette).map swapPair).Perm
      (findAccessiblePairs palette) := by
  classical
  set E := colorEntries palette.colors with hE
  set R := List.range 6 with hR
  have h1 : findAccessiblePairs palette =
      (R.flatMap fun i => R.map fun j => (i, j)).flatMap
        fun p => (pairCell E p.1 p.2).toList := by
    rw [findAccessiblePairs_eq_grid]
    rw [List.flatMap_assoc]
    refine List.flatMap_congr ?_
    intro i _
    rw [List.flatMap_map, filterMap_eq_flatMap_toList]
  have h2 : ((findAccessiblePairs palette).map swapPair) =
      (R.flatMap fun i => R.map fun j => (j, i)).flatMap
        fun p => (pairCell E p.1 p.2).toList := by
    rw [h1, List.map_flatMap]
    rw [List.flatMap_assoc, List.flatMap_assoc]
    refine List.flatMap_congr ?_
    intro i _
    rw [List.flatMap_map, List.flatMap_map]
    refine List.flatMap_congr ?_
    intro j _
    dsimp only
    rw [pairCell_swap E i j, option_toList_map]
  have hperm : (R.flatMap fun i => R.map fun j => ((j : ℕ), i)).Perm
      (R.flatMap fun i => R.map fun j => (i, j)) := by
    rw [hR]
    exact List.isPerm_iff.mp (by decide)
  rw [h2]
  conv_rhs => rw [h1]
  exact List.Perm.flatMap_right _ hperm

end AccessibilityChecker

open Classical in
/-- C10: the list returned by `findAccessiblePairs` is closed under swapping
the text and background fields: a pair with text a, background b and ratio r
occurs exactly as often as the pair with text b, background a and the same
ratio. -/
theorem C10_swap_closed (palette : Palette) (a b : String) (r : ℝ) :
    ((AccessibilityChecker.findAccessiblePairs palette).countP
        fun p => decide (p = ⟨a, b, r⟩)) =
      (AccessibilityChecker.findAccessiblePairs palette).countP
        fun p => decide (p = ⟨b, a, r⟩) := by
  have hperm := AccessibilityChecker.findAccessiblePairs_swap_perm palette
  have h1 := hperm.countP_eq fun p => decide (p = (⟨b, a, r⟩ : AccessiblePair))
  rw [List.countP_map] at h1
  rw [← h1]
  refine List.countP_congr ?_
  intro x hx
  simp only [Function.comp, decide_eq_true_eq]
  constructor
  · rintro rfl
    rfl
  · intro h
    have := congrArg AccessibilityChecker.swapPair h
    rwa [AccessibilityChecker.swapPair_swapPair] at this

namespace ColorUtility

/-- The HSL triple a stored hex string measures back to: parse with
`hexToRgb` (every hex this program stores parses; the default is the
all-zero triple) and re-measure with `rgbToHsl`. -/
def measuredHsl (hex : String) : Hsl :=
  let rgb := (hexToRgb hex).getD default
  rgbToHsl rgb.r rgb.g rgb.b

/-- The measured saturation/lightness of a generator colour, phrased on
`measuredHsl`. -/
theorem measured_getD (h s l : ℚ) (Q P : ℤ)
    (hh0 : 0 ≤ h) (hh1 : h ≤ 360)
    (hs : ¬ s / 100 = 0) (hs0 : 0 ≤ s) (hs1 : s ≤ 100) (hl0 : 0 ≤ l) (hl1 : l ≤ 100)
    (hsl : 2 * (l/100) - (if l/100 < 1/2 then l/100 * (1 + s/100)
              else l/100 + s/100 - l/100 * (s/100)) ≤
           (if l/100 < 1/2 then l/100 * (1 + s/100)
              else l/100 + s/100 - l/100 * (s/100)))
    (hQ : jsRound ((if l/100 < 1/2 then l/100 * (1 + s/100)
              else l/100 + s/100 - l/100 * (s/100)) * 255) = Q)
    (hP : jsRound ((2 * (l/100) - (if l/100 < 1/2 then l/100 * (1 + s/100)
              else l/100 + s/100 - l/100 * (s/100))) * 255) = P) :
    (measuredHsl (PaletteGenerator.hslHex h s l)).s = ((sOfQP Q P : ℤ) : ℚ) ∧
    (measuredHsl (PaletteGenerator.hslHex h s l)).l = ((lOfQP Q P : ℤ) : ℚ) ∧
    0 ≤ (measuredHsl (PaletteGenerator.hslHex h s l)).h ∧
    (measuredHsl (PaletteGenerator.hslHex h s l)).h ≤ 360 := by
  obtain ⟨R, G, B, -, hparse, -, -, -, -, -, -, -, -⟩ :=
    hslHex_parse_spec h s l Q P hh0 hh1 hs hs0 hs1 hl0 hl1 hsl hQ hP
  have hm := measured_color h s l Q P hh0 hh1 hs hs0 hs1 hl0 hl1 hsl hQ hP _ hparse
  simp only [measuredHsl, hparse, Option.getD_some]
  simpa using hm

end ColorUtility

namespace PaletteGenerator

open ColorUtility

/-- The hex the professional adjustment writes for a chromatic role. -/
theorem adjustColorProfessional_hex_chromatic (role : String) (c : Color)
    (h1 : role ≠ "text") (h2 : role ≠ "background") (h3 : role ≠ "surface") :
    (adjustColorProfessional role c).hex =
      hslHex (measuredHsl c.hex).h (min (measuredHsl c.hex).s 58)
        (measuredHsl c.hex).l := by
  simp only [adjustColorProfessional, measuredHsl, hslHex]
  rw [if_pos ⟨h1, h2, h3⟩]

/-- The hex the professional adjustment writes for a neutral role. -/
theorem adjustColorProfessional_hex_neutral (role : String) (c : Color)
    (h1 : ¬ (role ≠ "text" ∧ role ≠ "background" ∧ role ≠ "surface")) :
    (adjustColorProfessional role c).hex =
      hslHex (measuredHsl c.hex).h (measuredHsl c.hex).s (measuredHsl c.hex).l := by
  simp only [adjustColorProfessional, measuredHsl, hslHex]
  rw [if_neg h1]

/-- The hex the playful adjustment writes. -/
theorem adjustColorPlayful_hex (role : String) (c : Color) :
    (adjustColorPlayful role c).hex =
      hslHex (measuredHsl c.hex).h
        (if role = "accent" ∧ 50 ≤ (measuredHsl c.hex).s
          then max (measuredHsl c.hex).s 65 else (measuredHsl c.hex).s)
        (if role = "accent" ∧ 50 ≤ (measuredHsl c.hex).s
          then max (measuredHsl c.hex).l 52 else (measuredHsl c.hex).l) := by
  simp only [adjustColorPlayful, measuredHsl, hslHex]

end PaletteGenerator

namespace ColorUtility

attribute [local semireducible] Rat.add Rat.mul Rat.sub Rat.inv in
set_option maxRecDepth 10000 in
/-- Measured values of the generator colour at saturation 45, lightness 75:
any hue in range yields measured saturation 45 and lightness 75. -/
theorem meas_45_75 (h : ℚ) (hh0 : 0 ≤ h) (hh1 : h ≤ 360) :
    (measuredHsl (PaletteGenerator.hslHex h 45 75)).s = 45 ∧
    (measuredHsl (PaletteGenerator.hslHex h 45 75)).l = 75 ∧
    0 ≤ (measuredHsl (PaletteGenerator.hslHex h 45 75)).h ∧
    (measuredHsl (PaletteGenerator.hslHex h 45 75)).h ≤ 360 := by
  obtain ⟨h1, h2, h3, h4⟩ := measured_getD h 45 75 220 163 hh0 hh1 (by decide) (by decide)
    (by decide) (by decide) (by decide) (by decide) (by decide) (by decide)
  rw [show sOfQP 220 163 = 45 from by decide] at h1
  rw [show lOfQP 220 163 = 75 from by decide] at h2
  exact ⟨by exact_mod_cast h1, by exact_mod_cast h2, h3, h4⟩

attribute [local semireducible] Rat.add Rat.mul Rat.sub Rat.inv in
set_option maxRecDepth 10000 in
/-- Measured values of the generator colour at saturation 40, lightness 78:
any hue in range yields measured saturation 40 and lightness 78. -/
theorem meas_40_78 (h : ℚ) (hh0 : 0 ≤ h) (hh1 : h ≤ 360) :
    (measuredHsl (PaletteGenerator.hslHex h 40 78)).s = 40 ∧
    (measuredHsl (PaletteGenerator.hslHex h 40 78)).l = 78 ∧
    0 ≤ (measuredHsl (PaletteGenerator.hslHex h 40 78)).h ∧
    (measuredHsl (PaletteGenerator.hslHex h 40 78)).h ≤ 360 := by
  obtain ⟨h1, h2, h3, h4⟩ := measured_getD h 40 78 221 176 hh0 hh1 (by decide) (by decide)
    (by decide) (by decide) (by decide) (by decide) (by decide) (by decide)
  rw [show sOfQP 221 176 = 40 from by decide] at h1
  rw [show lOfQP 221 176 = 78 from by decide] at h2
  exact ⟨by exact_mod_cast h1, by exact_mod_cast h2, h3, h4⟩

attribute [local semireducible] Rat.add Rat.mul Rat.sub Rat.inv in
set_option maxRecDepth 10000 in
/-- Measured values of the generator colour at saturation 48, lightness 72:
any hue in range yields measured saturation 48 and lightness 72. -/
theorem meas_48_72 (h : ℚ) (hh0 : 0 ≤ h) (hh1 : h ≤ 360) :
    (measuredHsl (PaletteGenerator.hslHex h 48 72)).s = 48 ∧
    (measuredHsl (PaletteGenerator.hslHex h 48 72)).l = 72 ∧
    0 ≤ (measuredHsl (PaletteGenerator.hslHex h 48 72)).h ∧
    (measuredHsl (PaletteGenerator.hslHex h 48 72)).h ≤ 360 := by
  obtain ⟨h1, h2, h3, h4⟩ := measured_getD h 48 72 218 149 hh0 hh1 (by decide) (by decide)
    (by decide) (by decide) (by decide) (by decide) (by decide) (by decide)
  rw [show sOfQP 218 149 = 48 from by decide] at h1
  rw [show lOfQP 218 149 = 72 from by decide] at h2
  exact ⟨by exact_mod_cast h1, by exact_mod_cast h2, h3, h4⟩

attribute [local semireducible] Rat.add Rat.mul Rat.sub Rat.inv in
set_option maxRecDepth 10000 in
/-- Measured values of the generator colour at saturation 70, lightness 60:
any hue in range yields measured saturation 70 and lightness 60. -/
theorem meas_70_60 (h : ℚ) (hh0 : 0 ≤ h) (hh1 : h ≤ 360) :
    (measuredHsl (PaletteGenerator.hslHex h 70 60)).s = 70 ∧
    (measuredHsl (PaletteGenerator.hslHex h 70 60)).l = 60 ∧
    0 ≤ (measuredHsl (PaletteGenerator.hslHex h 70 60)).h ∧
    (measuredHsl (PaletteGenerator.hslHex h 70 60)).h ≤ 360 := by
  obtain ⟨h1, h2, h3, h4⟩ := measured_getD h 70 60 224 82 hh0 hh1 (by decide) (by decide)
    (by decide) (by decide) (by decide) (by decide) (by decide) (by decide)
  rw [show sOfQP 224 82 = 70 from by decide] at h1
  rw [show lOfQP 224 82 = 60 from by decide] at h2
  exact ⟨by exact_mod_cast h1, by exact_mod_cast h2, h3, h4⟩

attribute [local semireducible] Rat.add Rat.mul Rat.sub Rat.inv in
set_option maxRecDepth 10000 in
/-- Measured values of the generator colour at saturation 65, lightness 55:
any hue in range yields measured saturation 65 and lightness 55. -/
theorem meas_65_55 (h : ℚ) (hh0 : 0 ≤ h) (hh1 : h ≤ 360) :
    (measuredHsl (PaletteGenerator.hslHex h 65 55)).s = 65 ∧
    (measuredHsl (PaletteGenerator.hslHex h 65 55)).l = 55 ∧
    0 ≤ (measuredHsl (PaletteGenerator.hslHex h 65 55)).h ∧
    (measuredHsl (PaletteGenerator.hslHex h 65 55)).h ≤ 360 := by
  obtain ⟨h1, h2, h3, h4⟩ := measured_getD h 65 55 215 66 hh0 hh1 (by decide) (by decide)
    (by decide) (by decide) (by decide) (by decide) (by decide) (by decide)
  rw [show sOfQP 215 66 = 65 from by decide] at h1
  rw [show lOfQP 215 66 = 55 from by decide] at h2
  exact ⟨by exact_mod_cast h1, by exact_mod_cast h2, h3, h4⟩

attribute [local semireducible] Rat.add Rat.mul Rat.sub Rat.inv in
set_option maxRecDepth 10000 in
/-- Measured values of the generator colour at saturation 80, lightness 65:
any hue in range yields measured saturation 80 and lightness 65. -/
theorem meas_80_65 (h : ℚ) (hh0 : 0 ≤ h) (hh1 : h ≤ 360) :
    (measuredHsl (PaletteGenerator.hslHex h 80 65)).s = 80 ∧
    (measuredHsl (PaletteGenerator.hslHex h 80 65)).l = 65 ∧
    0 ≤ (measuredHsl (PaletteGenerator.hslHex h 80 65)).h ∧
    (measuredHsl (PaletteGenerator.hslHex h 80 65)).h ≤ 360 := by
  obtain ⟨h1, h2, h3, h4⟩ := measured_getD h 80 65 237 94 hh0 hh1 (by decide) (by decide)
    (by decide) (by decide) (by decide) (by decide) (by decide) (by decide)
  rw [show sOfQP 237 94 = 80 from by decide] at h1
  rw [show lOfQP 237 94 = 65 from by decide] at h2
  exact ⟨by exact_mod_cast h1, by exact_mod_cast h2, h3, h4⟩

attribute [local semireducible] Rat.add Rat.mul Rat.sub Rat.inv in
set_option maxRecDepth 10000 in
/-- Measured values of the generator colour at saturation 10, lightness 12:
any hue in range yields measured saturation 10 and lightness 12. -/
theorem meas_10_12 (h : ℚ) (hh0 : 0 ≤ h) (hh1 : h ≤ 360) :
    (measuredHsl (PaletteGenerator.hslHex h 10 12)).s = 10 ∧
    (measuredHsl (PaletteGenerator.hslHex h 10 12)).l = 12 ∧
    0 ≤ (measuredHsl (PaletteGenerator.hslHex h 10 12)).h ∧
    (measuredHsl (PaletteGenerator.hslHex h 10 12)).h ≤ 360 := by
  obtain ⟨h1, h2, h3, h4⟩ := measured_getD h 10 12 34 28 hh0 hh1 (by decide) (by decide)
    (by decide) (by decide) (by decide) (by decide) (by decide) (by decide)
  rw [show sOfQP 34 28 = 10 from by decide] at h1
  rw [show lOfQP 34 28 = 12 from by decide] at h2
  exact ⟨by exact_mod_cast h1, by exact_mod_cast h2, h3, h4⟩

attribute [local semireducible] Rat.add Rat.mul Rat.sub Rat.inv in
set_option maxRecDepth 10000 in
/-- Measured values of the generator colour at saturation 8, lightness 18:
any hue in range yields measured saturation 9 and lightness 18. -/
theorem meas_8_18 (h : ℚ) (hh0 : 0 ≤ h) (hh1 : h ≤ 360) :
    (measuredHsl (PaletteGenerator.hslHex h 8 18)).s = 9 ∧
    (measuredHsl (PaletteGenerator.hslHex h 8 18)).l = 18 ∧
    0 ≤ (measuredHsl (PaletteGenerator.hslHex h 8 18)).h ∧
    (measuredHsl (PaletteGenerator.hslHex h 8 18)).h ≤ 360 := by
  obtain ⟨h1, h2, h3, h4⟩ := measured_getD h 8 18 50 42 hh0 hh1 (by decide) (by decide)
    (by decide) (by decide) (by decide) (by decide) (by decide) (by decide)
  rw [show sOfQP 50 42 = 9 from by decide] at h1
  rw [show lOfQP 50 42 = 18 from by decide] at h2
  exact ⟨by exact_mod_cast h1, by exact_mod_cast h2, h3, h4⟩

attribute [local semireducible] Rat.add Rat.mul Rat.sub Rat.inv in
set_option maxRecDepth 10000 in
/-- Measured values of the generator colour at saturation 9, lightness 18:
any hue in range yields measured saturation 9 and lightness 18. -/
theorem meas_9_18 (h : ℚ) (hh0 : 0 ≤ h) (hh1 : h ≤ 360) :
    (measuredHsl (PaletteGenerator.hslHex h 9 18)).s = 9 ∧
    (measuredHsl (PaletteGenerator.hslHex h 9 18)).l = 18 ∧
    0 ≤ (measuredHsl (PaletteGenerator.hslHex h 9 18)).h ∧
    (measuredHsl (PaletteGenerator.hslHex h 9 18)).h ≤ 360 := by
  obtain ⟨h1, h2, h3, h4⟩ := measured_getD h 9 18 50 42 hh0 hh1 (by decide) (by decide)
    (by decide) (by decide) (by decide) (by decide) (by decide) (by decide)
  rw [show sOfQP 50 42 = 9 from by decide] at h1
  rw [show lOfQP 50 42 = 18 from by decide] at h2
  exact ⟨by exact_mod_cast h1, by exact_mod_cast h2, h3, h4⟩

attribute [local semireducible] Rat.add Rat.mul Rat.sub Rat.inv in
set_option maxRecDepth 10000 in
/-- Measured values of the generator colour at saturation 58, lightness 60:
any hue in range yields measured saturation 58 and lightness 60. -/
theorem meas_58_60 (h : ℚ) (hh0 : 0 ≤ h) (hh1 : h ≤ 360) :
    (measuredHsl (PaletteGenerator.hslHex h 58 60)).s = 58 ∧
    (measuredHsl (PaletteGenerator.hslHex h 58 60)).l = 60 ∧
    0 ≤ (measuredHsl (PaletteGenerator.hslHex h 58 60)).h ∧
    (measuredHsl (PaletteGenerator.hslHex h 58 60)).h ≤ 360 := by
  obtain ⟨h1, h2, h3, h4⟩ := measured_getD h 58 60 212 94 hh0 hh1 (by decide) (by decide)
    (by decide) (by decide) (by decide) (by decide) (by decide) (by decide)
  rw [show sOfQP 212 94 = 58 from by decide] at h1
  rw [show lOfQP 212 94 = 60 from by decide] at h2
  exact ⟨by exact_mod_cast h1, by exact_mod_cast h2, h3, h4⟩

attribute [local semireducible] Rat.add Rat.mul Rat.sub Rat.inv in
set_option maxRecDepth 10000 in
/-- Measured values of the generator colour at saturation 58, lightness 55:
any hue in range yields measured saturation 58 and lightness 55. -/
theorem meas_58_55 (h : ℚ) (hh0 : 0 ≤ h) (hh1 : h ≤ 360) :
    (measuredHsl (PaletteGenerator.hslHex h 58 55)).s = 58 ∧
    (measuredHsl (PaletteGenerator.hslHex h 58 55)).l = 55 ∧
    0 ≤ (measuredHsl (PaletteGenerator.hslHex h 58 55)).h ∧
    (measuredHsl (PaletteGenerator.hslHex h 58 55)).h ≤ 360 := by
  obtain ⟨h1, h2, h3, h4⟩ := measured_getD h 58 55 207 74 hh0 hh1 (by decide) (by decide)
    (by decide) (by decide) (by decide) (by decide) (by decide) (by decide)
  rw [show sOfQP 207 74 = 58 from by decide] at h1
  rw [show lOfQP 207 74 = 55 from by decide] at h2
  exact ⟨by exact_mod_cast h1, by exact_mod_cast h2, h3, h4⟩

attribute [local semireducible] Rat.add Rat.mul Rat.sub Rat.inv in
set_option maxRecDepth 10000 in
/-- Measured values of the generator colour at saturation 58, lightness 65:
any hue in range yields measured saturation 58 and lightness 65. -/
theorem meas_58_65 (h : ℚ) (hh0 : 0 ≤ h) (hh1 : h ≤ 360) :
    (measuredHsl (PaletteGenerator.hslHex h 58 65)).s = 58 ∧
    (measuredHsl (PaletteGenerator.hslHex h 58 65)).l = 65 ∧
    0 ≤ (measuredHsl (PaletteGenerator.hslHex h 58 65)).h ∧
    (measuredHsl (PaletteGenerator.hslHex h 58 65)).h ≤ 360 := by
  obtain ⟨h1, h2, h3, h4⟩ := measured_getD h 58 65 218 114 hh0 hh1 (by decide) (by decide)
    (by decide) (by decide) (by decide) (by decide) (by decide) (by decide)
  rw [show sOfQP 218 114 = 58 from by decide] at h1
  rw [show lOfQP 218 114 = 65 from by decide] at h2
  exact ⟨by exact_mod_cast h1, by exact_mod_cast h2, h3, h4⟩

end ColorUtility



namespace PaletteGenerator

open ColorUtility


/-- Pastel mood compliance of a colour map: every chromatic role measures
back to saturation below 50 and lightness above 70. -/
def pastelChromaOK (c : PaletteColors) : Prop :=
  ((measuredHsl c.primary.hex).s < 50 ∧ 70 < (measuredHsl c.primary.hex).l) ∧
  ((measuredHsl c.secondary.hex).s < 50 ∧ 70 < (measuredHsl c.secondary.hex).l) ∧
  ((measuredHsl c.accent.hex).s < 50 ∧ 70 < (measuredHsl c.accent.hex).l)

/-- Dark mood compliance of a colour map: background and surface measure
back to lightness below 20, the chromatic roles above 50. -/
def darkOK (c : PaletteColors) : Prop :=
  (measuredHsl c.background.hex).l < 20 ∧ (measuredHsl c.surface.hex).l < 20 ∧
  (50 < (measuredHsl c.primary.hex).l ∧ 50 < (measuredHsl c.secondary.hex).l ∧
    50 < (measuredHsl c.accent.hex).l)

theorem pastel_mood_id (seed : ℤ) (h0 : 0 ≤ seed) (h1 : seed < 360) :
    pastelChromaOK (generatePastelPalette seed).colors := by
  have hq0 : (0:ℚ) ≤ ((seed : ℤ) : ℚ) := by exact_mod_cast h0
  have hq1 : ((seed : ℤ) : ℚ) ≤ 360 := by exact_mod_cast h1.le
  have t60a : (0:ℤ) ≤ (seed + 60).tmod 360 := Int.tmod_nonneg 360 (by omega)
  have t60b : (seed + 60).tmod 360 < 360 := Int.tmod_lt_of_pos _ (by norm_num)
  have q60a : (0:ℚ) ≤ (((seed + 60).tmod 360 : ℤ) : ℚ) := by exact_mod_cast t60a
  have q60b : (((seed + 60).tmod 360 : ℤ) : ℚ) ≤ 360 := by exact_mod_cast t60b.le
  have t120a : (0:ℤ) ≤ (seed + 120).tmod 360 := Int.tmod_nonneg 360 (by omega)
  have t120b : (seed + 120).tmod 360 < 360 := Int.tmod_lt_of_pos _ (by norm_num)
  have q120a : (0:ℚ) ≤ (((seed + 120).tmod 360 : ℤ) : ℚ) := by exact_mod_cast t120a
  have q120b : (((seed + 120).tmod 360 : ℤ) : ℚ) ≤ 360 := by exact_mod_cast t120b.le
  have e1 : (generatePastelPalette seed).colors.primary.hex = hslHex ((seed : ℤ) : ℚ) 45 75 := rfl
  obtain ⟨a1, b1, -, -⟩ := meas_45_75 ((seed : ℤ) : ℚ) hq0 hq1
  have fs1 : (measuredHsl (generatePastelPalette seed).colors.primary.hex).s = 45 := by rw [e1]; exact a1
  have fl1 : (measuredHsl (generatePastelPalette seed).colors.primary.hex).l = 75 := by rw [e1]; exact b1
  have e2 : (generatePastelPalette seed).colors.secondary.hex = hslHex (((seed + 60).tmod 360 : ℤ) : ℚ) 40 78 := rfl
  obtain ⟨a2, b2, -, -⟩ := meas_40_78 (((seed + 60).tmod 360 : ℤ) : ℚ) q60a q60b
  have fs2 : (measuredHsl (generatePastelPalette seed).colors.secondary.hex).s = 40 := by rw [e2]; exact a2
  have fl2 : (measuredHsl (generatePastelPalette seed).colors.secondary.hex).l = 78 := by rw [e2]; exact b2
  have e3 : (generatePastelPalette seed).colors.accent.hex = hslHex (((seed + 120).tmod 360 : ℤ) : ℚ) 48 72 := rfl
  obtain ⟨a3, b3, -, -⟩ := meas_48_72 (((seed + 120).tmod 360 : ℤ) : ℚ) q120a q120b
  have fs3 : (measuredHsl (generatePastelPalette seed).colors.accent.hex).s = 48 := by rw [e3]; exact a3
  have fl3 : (measuredHsl (generatePastelPalette seed).colors.accent.hex).l = 72 := by rw [e3]; exact b3
  unfold pastelChromaOK
  exact ⟨⟨by rw [fs1]; norm_num, by rw [fl1]; norm_num⟩, ⟨by rw [fs2]; norm_num, by rw [fl2]; norm_num⟩, ⟨by rw [fs3]; norm_num, by rw [fl3]; norm_num⟩⟩

theorem pastel_mood_prof (seed : ℤ) (h0 : 0 ≤ seed) (h1 : seed < 360) :
    pastelChromaOK (applyProfessionalAdjustments (generatePastelPalette seed)).colors := by
  have hq0 : (0:ℚ) ≤ ((seed : ℤ) : ℚ) := by exact_mod_cast h0
  have hq1 : ((seed : ℤ) : ℚ) ≤ 360 := by exact_mod_cast h1.le
  have t60a : (0:ℤ) ≤ (seed + 60).tmod 360 := Int.tmod_nonneg 360 (by omega)
  have t60b : (seed + 60).tmod 360 < 360 := Int.tmod_lt_of_pos _ (by norm_num)
  have q60a : (0:ℚ) ≤ (((seed + 60).tmod 360 : ℤ) : ℚ) := by exact_mod_cast t60a
  have q60b : (((seed + 60).tmod 360 : ℤ) : ℚ) ≤ 360 := by exact_mod_cast t60b.le
  have t120a : (0:ℤ) ≤ (seed + 120).tmod 360 := Int.tmod_nonneg 360 (by omega)
  have t120b : (seed + 120).tmod 360 < 360 := Int.tmod_lt_of_pos _ (by norm_num)
  have q120a : (0:ℚ) ≤ (((seed + 120).tmod 360 : ℤ) : ℚ) := by exact_mod_cast t120a
  have q120b : (((seed + 120).tmod 360 : ℤ) : ℚ) ≤ 360 := by exact_mod_cast t120b.le
  have e1 : (applyProfessionalAdjustments (generatePastelPalette seed)).colors.primary.hex =
      hslHex (measuredHsl (hslHex ((seed : ℤ) : ℚ) 45 75)).h (min (measuredHsl (hslHex ((seed : ℤ) : ℚ) 45 75)).s 58) (measuredHsl (hslHex ((seed : ℤ) : ℚ) 45 75)).l :=
    adjustColorProfessional_hex_chromatic "primary" (generatePastelPalette seed).colors.primary
      (by decide) (by decide) (by decide)
  obtain ⟨a1, b1, c1, d1⟩ := meas_45_75 ((seed : ℤ) : ℚ) hq0 hq1
  rw [a1, b1, show min ((45 : ℚ)) 58 = 45 from by norm_num] at e1
  obtain ⟨a1x, b1x, -, -⟩ := meas_45_75 _ c1 d1
  have a1 := a1x
  have b1 := b1x
  have fs1 : (measuredHsl (applyProfessionalAdjustments (generatePastelPalette seed)).colors.primary.hex).s = 45 := by rw [e1]; exact a1
  have fl1 : (measuredHsl (applyProfessionalAdjustments (generatePastelPalette seed)).colors.primary.hex).l = 75 := by rw [e1]; exact b1
  have e2 : (applyProfessionalAdjustments (generatePastelPalette seed)).colors.secondary.hex =
      hslHex (measuredHsl (hslHex (((seed + 60).tmod 360 : ℤ) : ℚ) 40 78)).h (min (measuredHsl (hslHex (((seed + 60).tmod 360 : ℤ) : ℚ) 40 78)).s 58) (measuredHsl (hslHex (((seed + 60).tmod 360 : ℤ) : ℚ) 40 78)).l :=
    adjustColorProfessional_hex_chromatic "secondary" (generatePastelPalette seed).colors.secondary
      (by decide) (by decide) (by decide)
  obtain ⟨a2, b2, c2, d2⟩ := meas_40_78 (((seed + 60).tmod 360 : ℤ) : ℚ) q60a q60b
  rw [a2, b2, show min ((40 : ℚ)) 58 = 40 from by norm_num] at e2
  obtain ⟨a2x, b2x, -, -⟩ := meas_40_78 _ c2 d2
  have a2 := a2x
  have b2 := b2x
  have fs2 : (measuredHsl (applyProfessionalAdjustments (generatePastelPalette seed)).colors.secondary.hex).s = 40 := by rw [e2]; exact a2
  have fl2 : (measuredHsl (applyProfessionalAdjustments (generatePastelPalette seed)).colors.secondary.hex).l = 78 := by rw [e2]; exact b2
  have e3 : (applyProfessionalAdjustments (generatePastelPalette seed)).colors.accent.hex =
      hslHex (measuredHsl (hslHex (((seed + 120).tmod 360 : ℤ) : ℚ) 48 72)).h (min (measuredHsl (hslHex (((seed + 120).tmod 360 : ℤ) : ℚ) 48 72)).s 58) (measuredHsl (hslHex (((seed + 120).tmod 360 : ℤ) : ℚ) 48 72)).l :=
    adjustColorProfessional_hex_chromatic "accent" (generatePastelPalette seed).colors.accent
      (by decide) (by decide) (by decide)
  obtain ⟨a3, b3, c3, d3⟩ := meas_48_72 (((seed + 120).tmod 360 : ℤ) : ℚ) q120a q120b
  rw [a3, b3, show min ((48 : ℚ)) 58 = 48 from by norm_num] at e3
  obtain ⟨a3x, b3x, -, -⟩ := meas_48_72 _ c3 d3
  have a3 := a3x
  have b3 := b3x
  have fs3 : (measuredHsl (applyProfessionalAdjustments (generatePastelPalette seed)).colors.accent.hex).s = 48 := by rw [e3]; exact a3
  have fl3 : (measuredHsl (applyProfessionalAdjustments (generatePastelPalette seed)).colors.accent.hex).l = 72 := by rw [e3]; exact b3
  unfold pastelChromaOK
  exact ⟨⟨by rw [fs1]; norm_num, by rw [fl1]; norm_num⟩, ⟨by rw [fs2]; norm_num, by rw [fl2]; norm_num⟩, ⟨by rw [fs3]; norm_num, by rw [fl3]; norm_num⟩⟩

theorem pastel_mood_play (seed : ℤ) (h0 : 0 ≤ seed) (h1 : seed < 360) :
    pastelChromaOK (applyPlayfulAdjustments (generatePastelPalette seed)).colors := by
  have hq0 : (0:ℚ) ≤ ((seed : ℤ) : ℚ) := by exact_mod_cast h0
  have hq1 : ((seed : ℤ) : ℚ) ≤ 360 := by exact_mod_cast h1.le
  have t60a : (0:ℤ) ≤ (seed + 60).tmod 360 := Int.tmod_nonneg 360 (by omega)
  have t60b : (seed + 60).tmod 360 < 360 := Int.tmod_lt_of_pos _ (by norm_num)
  have q60a : (0:ℚ) ≤ (((seed + 60).tmod 360 : ℤ) : ℚ) := by exact_mod_cast t60a
  have q60b : (((seed + 60).tmod 360 : ℤ) : ℚ) ≤ 360 := by exact_mod_cast t60b.le
  have t120a : (0:ℤ) ≤ (seed + 120).tmod 360 := Int.tmod_nonneg 360 (by omega)
  have t120b : (seed + 120).tmod 360 < 360 := Int.tmod_lt_of_pos _ (by norm_num)
  have q120a : (0:ℚ) ≤ (((seed + 120).tmod 360 : ℤ) : ℚ) := by exact_mod_cast t120a
  have q120b : (((seed + 120).tmod 360 : ℤ) : ℚ) ≤ 360 := by exact_mod_cast t120b.le
  have e1 : (applyPlayfulAdjustments (generatePastelPalette seed)).colors.primary.hex =
      hslHex (measuredHsl (hslHex ((seed : ℤ) : ℚ) 45 75)).h (if "primary" = "accent" ∧ 50 ≤ (measuredHsl (hslHex ((seed : ℤ) : ℚ) 45 75)).s then max (measuredHsl (hslHex ((seed : ℤ) : ℚ) 45 75)).s 65 else (measuredHsl (hslHex ((seed : ℤ) : ℚ) 45 75)).s)
        (if "primary" = "accent" ∧ 50 ≤ (measuredHsl (hslHex ((seed : ℤ) : ℚ) 45 75)).s then max (measuredHsl (hslHex ((seed : ℤ) : ℚ) 45 75)).l 52 else (measuredHsl (hslHex ((seed : ℤ) : ℚ) 45 75)).l) :=
    adjustColorPlayful_hex "primary" (generatePastelPalette seed).colors.primary
  obtain ⟨a1, b1, c1, d1⟩ := meas_45_75 ((seed : ℤ) : ℚ) hq0 hq1
  rw [a1, b1] at e1
  simp only [if_neg (show ¬("primary" = "accent" ∧ (50:ℚ) ≤ 45) from
    fun hc => absurd hc.1 (by decide))] at e1
  obtain ⟨a1x, b1x, -, -⟩ := meas_45_75 _ c1 d1
  have a1 := a1x
  have b1 := b1x
  have fs1 : (measuredHsl (applyPlayfulAdjustments (generatePastelPalette seed)).colors.primary.hex).s = 45 := by rw [e1]; exact a1
  have fl1 : (measuredHsl (applyPlayfulAdjustments (generatePastelPalette seed)).colors.primary.hex).l = 75 := by rw [e1]; exact b1
  have e2 : (applyPlayfulAdjustments (generatePastelPalette seed)).colors.secondary.hex =
      hslHex (measuredHsl (hslHex (((seed + 60).tmod 360 : ℤ) : ℚ) 40 78)).h (if "secondary" = "accent" ∧ 50 ≤ (measuredHsl (hslHex (((seed + 60).tmod 360 : ℤ) : ℚ) 40 78)).s then max (measuredHsl (hslHex (((seed + 60).tmod 360 : ℤ) : ℚ) 40 78)).s 65 else (measuredHsl (hslHex (((seed + 60).tmod 360 : ℤ) : ℚ) 40 78)).s)
        (if "secondary" = "accent" ∧ 50 ≤ (measuredHsl (hslHex (((seed + 60).tmod 360 : ℤ) : ℚ) 40 78)).s then max (measuredHsl (hslHex (((seed + 60).tmod 360 : ℤ) : ℚ) 40 78)).l 52 else (measuredHsl (hslHex (((seed + 60).tmod 360 : ℤ) : ℚ) 40 78)).l) :=
    adjustColorPlayful_hex "secondary" (generatePastelPalette seed).colors.secondary
  obtain ⟨a2, b2, c2, d2⟩ := meas_40_78 (((seed + 60).tmod 360 : ℤ) : ℚ) q60a q60b
  rw [a2, b2] at e2
  simp only [if_neg (show ¬("secondary" = "accent" ∧ (50:ℚ) ≤ 40) from
    fun hc => absurd hc.1 (by decide))] at e2
  obtain ⟨a2x, b2x, -, -⟩ := meas_40_78 _ c2 d2
  have a2 := a2x
  have b2 := b2x
  have fs2 : (measuredHsl (applyPlayfulAdjustments (generatePastelPalette seed)).colors.secondary.hex).s = 40 := by rw [e2]; exact a2
  have fl2 : (measuredHsl (applyPlayfulAdjustments (generatePastelPalette seed)).colors.secondary.hex).l = 78 := by rw [e2]; exact b2
  have e3 : (applyPlayfulAdjustments (generatePastelPalette seed)).colors.accent.hex =
      hslHex (measuredHsl (hslHex (((seed + 120).tmod 360 : ℤ) : ℚ) 48 72)).h (if "accent" = "accent" ∧ 50 ≤ (measuredHsl (hslHex (((seed + 120).tmod 360 : ℤ) : ℚ) 48 72)).s then max (measuredHsl (hslHex (((seed + 120).tmod 360 : ℤ) : ℚ) 48 72)).s 65 else (measuredHsl (hslHex (((seed + 120).tmod 360 : ℤ) : ℚ) 48 72)).s)
        (if "accent" = "accent" ∧ 50 ≤ (measuredHsl (hslHex (((seed + 120).tmod 360 : ℤ) : ℚ) 48 72)).s then max (measuredHsl (hslHex (((seed + 120).tmod 360 : ℤ) : ℚ) 48 72)).l 52 else (measuredHsl (hslHex (((seed + 120).tmod 360 : ℤ) : ℚ) 48 72)).l) :=
    adjustColorPlayful_hex "accent" (generatePastelPalette seed).colors.accent
  obtain ⟨a3, b3, c3, d3⟩ := meas_48_72 (((seed + 120).tmod 360 : ℤ) : ℚ) q120a q120b
  rw [a3, b3] at e3
  simp only [if_neg (show ¬("accent" = "accent" ∧ (50:ℚ) ≤ 48) from
    fun hc => absurd hc.2 (by norm_num))] at e3
  obtain ⟨a3x, b3x, -, -⟩ := meas_48_72 _ c3 d3
  have a3 := a3x
  have b3 := b3x
  have fs3 : (measuredHsl (applyPlayfulAdjustments (generatePastelPalette seed)).colors.accent.hex).s = 48 := by rw [e3]; exact a3
  have fl3 : (measuredHsl (applyPlayfulAdjustments (generatePastelPalette seed)).colors.accent.hex).l = 72 := by rw [e3]; exact b3
  unfold pastelChromaOK
  exact ⟨⟨by rw [fs1]; norm_num, by rw [fl1]; norm_num⟩, ⟨by rw [fs2]; norm_num, by rw [fl2]; norm_num⟩, ⟨by rw [fs3]; norm_num, by rw [fl3]; norm_num⟩⟩

theorem dark_mood_id (seed : ℤ) (h0 : 0 ≤ seed) (h1 : seed < 360) :
    darkOK (generateDarkModePalette seed).colors := by
  have hq0 : (0:ℚ) ≤ ((seed : ℤ) : ℚ) := by exact_mod_cast h0
  have hq1 : ((seed : ℤ) : ℚ) ≤ 360 := by exact_mod_cast h1.le
  have t30a : (0:ℤ) ≤ (seed + 30).tmod 360 := Int.tmod_nonneg 360 (by omega)
  have t30b : (seed + 30).tmod 360 < 360 := Int.tmod_lt_of_pos _ (by norm_num)
  have q30a : (0:ℚ) ≤ (((seed + 30).tmod 360 : ℤ) : ℚ) := by exact_mod_cast t30a
  have q30b : (((seed + 30).tmod 360 : ℤ) : ℚ) ≤ 360 := by exact_mod_cast t30b.le
  have t60a : (0:ℤ) ≤ (seed + 60).tmod 360 := Int.tmod_nonneg 360 (by omega)
  have t60b : (seed + 60).tmod 360 < 360 := Int.tmod_lt_of_pos _ (by norm_num)
  have q60a : (0:ℚ) ≤ (((seed + 60).tmod 360 : ℤ) : ℚ) := by exact_mod_cast t60a
  have q60b : (((seed + 60).tmod 360 : ℤ) : ℚ) ≤ 360 := by exact_mod_cast t60b.le
  have e1 : (generateDarkModePalette seed).colors.background.hex = hslHex ((seed : ℤ) : ℚ) 10 12 := rfl
  obtain ⟨a1, b1, -, -⟩ := meas_10_12 ((seed : ℤ) : ℚ) hq0 hq1
  have fs1 : (measuredHsl (generateDarkModePalette seed).colors.background.hex).s = 10 := by rw [e1]; exact a1
  have fl1 : (measuredHsl (generateDarkModePalette seed).colors.background.hex).l = 12 := by rw [e1]; exact b1
  have e2 : (generateDarkModePalette seed).colors.surface.hex = hslHex ((seed : ℤ) : ℚ) 8 18 := rfl
  obtain ⟨a2, b2, -, -⟩ := meas_8_18 ((seed : ℤ) : ℚ) hq0 hq1
  have fs2 : (measuredHsl (generateDarkModePalette seed).colors.surface.hex).s = 9 := by rw [e2]; exact a2
  have fl2 : (measuredHsl (generateDarkModePalette seed).colors.surface.hex).l = 18 := by rw [e2]; exact b2
  have e3 : (generateDarkModePalette seed).colors.primary.hex = hslHex ((seed : ℤ) : ℚ) 70 60 := rfl
  obtain ⟨a3, b3, -, -⟩ := meas_70_60 ((seed : ℤ) : ℚ) hq0 hq1
  have fs3 : (measuredHsl (generateDarkModePalette seed).colors.primary.hex).s = 70 := by rw [e3]; exact a3
  have fl3 : (measuredHsl (generateDarkModePalette seed).colors.primary.hex).l = 60 := by rw [e3]; exact b3
  have e4 : (generateDarkModePalette seed).colors.secondary.hex = hslHex (((seed + 30).tmod 360 : ℤ) : ℚ) 65 55 := rfl
  obtain ⟨a4, b4, -, -⟩ := meas_65_55 (((seed + 30).tmod 360 : ℤ) : ℚ) q30a q30b
  have fs4 : (measuredHsl (generateDarkModePalette seed).colors.secondary.hex).s = 65 := by rw [e4]; exact a4
  have fl4 : (measuredHsl (generateDarkModePalette seed).colors.secondary.hex).l = 55 := by rw [e4]; exact b4
  have e5 : (generateDarkModePalette seed).colors.accent.hex = hslHex (((seed + 60).tmod 360 : ℤ) : ℚ) 80 65 := rfl
  obtain ⟨a5, b5, -, -⟩ := meas_80_65 (((seed + 60).tmod 360 : ℤ) : ℚ) q60a q60b
  have fs5 : (measuredHsl (generateDarkModePalette seed).colors.accent.hex).s = 80 := by rw [e5]; exact a5
  have fl5 : (measuredHsl (generateDarkModePalette seed).colors.accent.hex).l = 65 := by rw [e5]; exact b5
  unfold darkOK
  exact ⟨by rw [fl1]; norm_num, by rw [fl2]; norm_num, by rw [fl3]; norm_num, by rw [fl4]; norm_num, by rw [fl5]; norm_num⟩

theorem dark_mood_prof (seed : ℤ) (h0 : 0 ≤ seed) (h1 : seed < 360) :
    darkOK (applyProfessionalAdjustments (generateDarkModePalette seed)).colors := by
  have hq0 : (0:ℚ) ≤ ((seed : ℤ) : ℚ) := by exact_mod_cast h0
  have hq1 : ((seed : ℤ) : ℚ) ≤ 360 := by exact_mod_cast h1.le
  have t30a : (0:ℤ) ≤ (seed + 30).tmod 360 := Int.tmod_nonneg 360 (by omega)
  have t30b : (seed + 30).tmod 360 < 360 := Int.tmod_lt_of_pos _ (by norm_num)
  have q30a : (0:ℚ) ≤ (((seed + 30).tmod 360 : ℤ) : ℚ) := by exact_mod_cast t30a
  have q30b : (((seed + 30).tmod 360 : ℤ) : ℚ) ≤ 360 := by exact_mod_cast t30b.le
  have t60a : (0:ℤ) ≤ (seed + 60).tmod 360 := Int.tmod_nonneg 360 (by omega)
  have t60b : (seed + 60).tmod 360 < 360 := Int.tmod_lt_of_pos _ (by norm_num)
  have q60a : (0:ℚ) ≤ (((seed + 60).tmod 360 : ℤ) : ℚ) := by exact_mod_cast t60a
  have q60b : (((seed + 60).tmod 360 : ℤ) : ℚ) ≤ 360 := by exact_mod_cast t60b.le
  have e1 : (applyProfessionalAdjustments (generateDarkModePalette seed)).colors.background.hex =
      hslHex (measuredHsl (hslHex ((seed : ℤ) : ℚ) 10 12)).h (measuredHsl (hslHex ((seed : ℤ) : ℚ) 10 12)).s (measuredHsl (hslHex ((seed : ℤ) : ℚ) 10 12)).l :=
    adjustColorProfessional_hex_neutral "background" (generateDarkModePalette seed).colors.background (by decide)
  obtain ⟨a1, b1, c1, d1⟩ := meas_10_12 ((seed : ℤ) : ℚ) hq0 hq1
  rw [a1, b1] at e1
  obtain ⟨a1x, b1x, -, -⟩ := meas_10_12 _ c1 d1
  have a1 := a1x
  have b1 := b1x
  have fs1 : (measuredHsl (applyProfessionalAdjustments (generateDarkModePalette seed)).colors.background.hex).s = 10 := by rw [e1]; exact a1
  have fl1 : (measuredHsl (applyProfessionalAdjustments (generateDarkModePalette seed)).colors.background.hex).l = 12 := by rw [e1]; exact b1
  have e2 : (applyProfessionalAdjustments (generateDarkModePalette seed)).colors.surface.hex =
      hslHex (measuredHsl (hslHex ((seed : ℤ) : ℚ) 8 18)).h (measuredHsl (hslHex ((seed : ℤ) : ℚ) 8 18)).s (measuredHsl (hslHex ((seed : ℤ) : ℚ) 8 18)).l :=
    adjustColorProfessional_hex_neutral "surface" (generateDarkModePalette seed).colors.surface (by decide)
  obtain ⟨a2, b2, c2, d2⟩ := meas_8_18 ((seed : ℤ) : ℚ) hq0 hq1
  rw [a2, b2] at e2
  obtain ⟨a2x, b2x, -, -⟩ := meas_9_18 _ c2 d2
  have a2 := a2x
  have b2 := b2x
  have fs2 : (measuredHsl (applyProfessionalAdjustments (generateDarkModePalette seed)).colors.surface.hex).s = 9 := by rw [e2]; exact a2
  have fl2 : (measuredHsl (applyProfessionalAdjustments (generateDarkModePalette seed)).colors.surface.hex).l = 18 := by rw [e2]; exact b2
  have e3 : (applyProfessionalAdjustments (generateDarkModePalette seed)).colors.primary.hex =
      hslHex (measuredHsl (hslHex ((seed : ℤ) : ℚ) 70 60)).h (min (measuredHsl (hslHex ((seed : ℤ) : ℚ) 70 60)).s 58) (measuredHsl (hslHex ((seed : ℤ) : ℚ) 70 60)).l :=
    adjustColorProfessional_hex_chromatic "primary" (generateDarkModePalette seed).colors.primary
      (by decide) (by decide) (by decide)
  obtain ⟨a3, b3, c3, d3⟩ := meas_70_60 ((seed : ℤ) : ℚ) hq0 hq1
  rw [a3, b3, show min ((70 : ℚ)) 58 = 58 from by norm_num] at e3
  obtain ⟨a3x, b3x, -, -⟩ := meas_58_60 _ c3 d3
  have a3 := a3x
  have b3 := b3x
  have fs3 : (measuredHsl (applyProfessionalAdjustments (generateDarkModePalette seed)).colors.primary.hex).s = 58 := by rw [e3]; exact a3
  have fl3 : (measuredHsl (applyProfessionalAdjustments (generateDarkModePalette seed)).colors.primary.hex).l = 60 := by rw [e3]; exact b3
  have e4 : (applyProfessionalAdjustments (generateDarkModePalette seed)).colors.secondary.hex =
      hslHex (measuredHsl (hslHex (((seed + 30).tmod 360 : ℤ) : ℚ) 65 55)).h (min (measuredHsl (hslHex (((seed + 30).tmod 360 : ℤ) : ℚ) 65 55)).s 58) (measuredHsl (hslHex (((seed + 30).tmod 360 : ℤ) : ℚ) 65 55)).l :=
    adjustColorProfessional_hex_chromatic "secondary" (generateDarkModePalette seed).colors.secondary
      (by decide) (by decide) (by decide)
  obtain ⟨a4, b4, c4, d4⟩ := meas_65_55 (((seed + 30).tmod 360 : ℤ) : ℚ) q30a q30b
  rw [a4, b4, show min ((65 : ℚ)) 58 = 58 from by norm_num] at e4
  obtain ⟨a4x, b4x, -, -⟩ := meas_58_55 _ c4 d4
  have a4 := a4x
  have b4 := b4x
  have fs4 : (measuredHsl (applyProfessionalAdjustments (generateDarkModePalette seed)).colors.secondary.hex).s = 58 := by rw [e4]; exact a4
  have fl4 : (measuredHsl (applyProfessionalAdjustments (generateDarkModePalette seed)).colors.secondary.hex).l = 55 := by rw [e4]; exact b4
  have e5 : (applyProfessionalAdjustments (generateDarkModePalette seed)).colors.accent.hex =
      hslHex (measuredHsl (hslHex (((seed + 60).tmod 360 : ℤ) : ℚ) 80 65)).h (min (measuredHsl (hslHex (((seed + 60).tmod 360 : ℤ) : ℚ) 80 65)).s 58) (measuredHsl (hslHex (((seed + 60).tmod 360 : ℤ) : ℚ) 80 65)).l :=
    adjustColorProfessional_hex_chromatic "accent" (generateDarkModePalette seed).colors.accent
      (by decide) (by decide) (by decide)
  obtain ⟨a5, b5, c5, d5⟩ := meas_80_65 (((seed + 60).tmod 360 : ℤ) : ℚ) q60a q60b
  rw [a5, b5, show min ((80 : ℚ)) 58 = 58 from by norm_num] at e5
  obtain ⟨a5x, b5x, -, -⟩ := meas_58_65 _ c5 d5
  have a5 := a5x
  have b5 := b5x
  have fs5 : (measuredHsl (applyProfessionalAdjustments (generateDarkModePalette seed)).colors.accent.hex).s = 58 := by rw [e5]; exact a5
  have fl5 : (measuredHsl (applyProfessionalAdjustments (generateDarkModePalette seed)).colors.accent.hex).l = 65 := by rw [e5]; exact b5
  unfold darkOK
  exact ⟨by rw [fl1]; norm_num, by rw [fl2]; norm_num, by rw [fl3]; norm_num, by rw [fl4]; norm_num, by rw [fl5]; norm_num⟩

theorem dark_mood_play (seed : ℤ) (h0 : 0 ≤ seed) (h1 : seed < 360) :
    darkOK (applyPlayfulAdjustments (generateDarkModePalette seed)).colors := by
  have hq0 : (0:ℚ) ≤ ((seed : ℤ) : ℚ) := by exact_mod_cast h0
  have hq1 : ((seed : ℤ) : ℚ) ≤ 360 := by exact_mod_cast h1.le
  have t30a : (0:ℤ) ≤ (seed + 30).tmod 360 := Int.tmod_nonneg 360 (by omega)
  have t30b : (seed + 30).tmod 360 < 360 := Int.tmod_lt_of_pos _ (by norm_num)
  have q30a : (0:ℚ) ≤ (((seed + 30).tmod 360 : ℤ) : ℚ) := by exact_mod_cast t30a
  have q30b : (((seed + 30).tmod 360 : ℤ) : ℚ) ≤ 360 := by exact_mod_cast t30b.le
  have t60a : (0:ℤ) ≤ (seed + 60).tmod 360 := Int.tmod_nonneg 360 (by omega)
  have t60b : (seed + 60).tmod 360 < 360 := Int.tmod_lt_of_pos _ (by norm_num)
  have q60a : (0:ℚ) ≤ (((seed + 60).tmod 360 : ℤ) : ℚ) := by exact_mod_cast t60a
  have q60b : (((seed + 60).tmod 360 : ℤ) : ℚ) ≤ 360 := by exact_mod_cast t60b.le
  have e1 : (applyPlayfulAdjustments (generateDarkModePalette seed)).colors.background.hex =
      hslHex (measuredHsl (hslHex ((seed : ℤ) : ℚ) 10 12)).h (if "background" = "accent" ∧ 50 ≤ (measuredHsl (hslHex ((seed : ℤ) : ℚ) 10 12)).s then max (measuredHsl (hslHex ((seed : ℤ) : ℚ) 10 12)).s 65 else (measuredHsl (hslHex ((seed : ℤ) : ℚ) 10 12)).s)
        (if "background" = "accent" ∧ 50 ≤ (measuredHsl (hslHex ((seed : ℤ) : ℚ) 10 12)).s then max (measuredHsl (hslHex ((seed : ℤ) : ℚ) 10 12)).l 52 else (measuredHsl (hslHex ((seed : ℤ) : ℚ) 10 12)).l) :=
    adjustColorPlayful_hex "background" (generateDarkModePalette seed).colors.background
  obtain ⟨a1, b1, c1, d1⟩ := meas_10_12 ((seed : ℤ) : ℚ) hq0 hq1
  rw [a1, b1] at e1
  simp only [if_neg (show ¬("background" = "accent" ∧ (50:ℚ) ≤ 10) from
    fun hc => absurd hc.1 (by decide))] at e1
  obtain ⟨a1x, b1x, -, -⟩ := meas_10_12 _ c1 d1
  have a1 := a1x
  have b1 := b1x
  have fs1 : (measuredHsl (applyPlayfulAdjustments (generateDarkModePalette seed)).colors.background.hex).s = 10 := by rw [e1]; exact a1
  have fl1 : (measuredHsl (applyPlayfulAdjustments (generateDarkModePalette seed)).colors.background.hex).l = 12 := by rw [e1]; exact b1
  have e2 : (applyPlayfulAdjustments (generateDarkModePalette seed)).colors.surface.hex =
      hslHex (measuredHsl (hslHex ((seed : ℤ) : ℚ) 8 18)).h (if "surface" = "accent" ∧ 50 ≤ (measuredHsl (hslHex ((seed : ℤ) : ℚ) 8 18)).s then max (measuredHsl (hslHex ((seed : ℤ) : ℚ) 8 18)).s 65 else (measuredHsl (hslHex ((seed : ℤ) : ℚ) 8 18)).s)
        (if "surface" = "accent" ∧ 50 ≤ (measuredHsl (hslHex ((seed : ℤ) : ℚ) 8 18)).s then max (measuredHsl (hslHex ((seed : ℤ) : ℚ) 8 18)).l 52 else (measuredHsl (hslHex ((seed : ℤ) : ℚ) 8 18)).l) :=
    adjustColorPlayful_hex "surface" (generateDarkModePalette seed).colors.surface
  obtain ⟨a2, b2, c2, d2⟩ := meas_8_18 ((seed : ℤ) : ℚ) hq0 hq1
  rw [a2, b2] at e2
  simp only [if_neg (show ¬("surface" = "accent" ∧ (50:ℚ) ≤ 9) from
    fun hc => absurd hc.1 (by decide))] at e2
  obtain ⟨a2x, b2x, -, -⟩ := meas_9_18 _ c2 d2
  have a2 := a2x
  have b2 := b2x
  have fs2 : (measuredHsl (applyPlayfulAdjustments (generateDarkModePalette seed)).colors.surface.hex).s = 9 := by rw [e2]; exact a2
  have fl2 : (measuredHsl (applyPlayfulAdjustments (generateDarkModePalette seed)).colors.surface.hex).l = 18 := by rw [e2]; exact b2
  have e3 : (applyPlayfulAdjustments (generateDarkModePalette seed)).colors.primary.hex =
      hslHex (measuredHsl (hslHex ((seed : ℤ) : ℚ) 70 60)).h (if "primary" = "accent" ∧ 50 ≤ (measuredHsl (hslHex ((seed : ℤ) : ℚ) 70 60)).s then max (measuredHsl (hslHex ((seed : ℤ) : ℚ) 70 60)).s 65 else (measuredHsl (hslHex ((seed : ℤ) : ℚ) 70 60)).s)
        (if "primary" = "accent" ∧ 50 ≤ (measuredHsl (hslHex ((seed : ℤ) : ℚ) 70 60)).s then max (measuredHsl (hslHex ((seed : ℤ) : ℚ) 70 60)).l 52 else (measuredHsl (hslHex ((seed : ℤ) : ℚ) 70 60)).l) :=
    adjustColorPlayful_hex "primary" (generateDarkModePalette seed).colors.primary
  obtain ⟨a3, b3, c3, d3⟩ := meas_70_60 ((seed : ℤ) : ℚ) hq0 hq1
  rw [a3, b3] at e3
  simp only [if_neg (show ¬("primary" = "accent" ∧ (50:ℚ) ≤ 70) from
    fun hc => absurd hc.1 (by decide))] at e3
  obtain ⟨a3x, b3x, -, -⟩ := meas_70_60 _ c3 d3
  have a3 := a3x
  have b3 := b3x
  have fs3 : (measuredHsl (applyPlayfulAdjustments (generateDarkModePalette seed)).colors.primary.hex).s = 70 := by rw [e3]; exact a3
  have fl3 : (measuredHsl (applyPlayfulAdjustments (generateDarkModePalette seed)).colors.primary.hex).l = 60 := by rw [e3]; exact b3
  have e4 : (applyPlayfulAdjustments (generateDarkModePalette seed)).colors.secondary.hex =
      hslHex (measuredHsl (hslHex (((seed + 30).tmod 360 : ℤ) : ℚ) 65 55)).h (if "secondary" = "accent" ∧ 50 ≤ (measuredHsl (hslHex (((seed + 30).tmod 360 : ℤ) : ℚ) 65 55)).s then max (measuredHsl (hslHex (((seed + 30).tmod 360 : ℤ) : ℚ) 65 55)).s 65 else (measuredHsl (hslHex (((seed + 30).tmod 360 : ℤ) : ℚ) 65 55)).s)
        (if "secondary" = "accent" ∧ 50 ≤ (measuredHsl (hslHex (((seed + 30).tmod 360 : ℤ) : ℚ) 65 55)).s then max (measuredHsl (hslHex (((seed + 30).tmod 360 : ℤ) : ℚ) 65 55)).l 52 else (measuredHsl (hslHex (((seed + 30).tmod 360 : ℤ) : ℚ) 65 55)).l) :=
    adjustColorPlayful_hex "secondary" (generateDarkModePalette seed).colors.secondary
  obtain ⟨a4, b4, c4, d4⟩ := meas_65_55 (((seed + 30).tmod 360 : ℤ) : ℚ) q30a q30b
  rw [a4, b4] at e4
  simp only [if_neg (show ¬("secondary" = "accent" ∧ (50:ℚ) ≤ 65) from
    fun hc => absurd hc.1 (by decide))] at e4
  obtain ⟨a4x, b4x, -, -⟩ := meas_65_55 _ c4 d4
  have a4 := a4x
  have b4 := b4x
  have fs4 : (measuredHsl (applyPlayfulAdjustments (generateDarkModePalette seed)).colors.secondary.hex).s = 65 := by rw [e4]; exact a4
  have fl4 : (measuredHsl (applyPlayfulAdjustments (generateDarkModePalette seed)).colors.secondary.hex).l = 55 := by rw [e4]; exact b4
  have e5 : (applyPlayfulAdjustments (generateDarkModePalette seed)).colors.accent.hex =
      hslHex (measuredHsl (hslHex (((seed + 60).tmod 360 : ℤ) : ℚ) 80 65)).h (if "accent" = "accent" ∧ 50 ≤ (measuredHsl (hslHex (((seed + 60).tmod 360 : ℤ) : ℚ) 80 65)).s then max (measuredHsl (hslHex (((seed + 60).tmod 360 : ℤ) : ℚ) 80 65)).s 65 else (measuredHsl (hslHex (((seed + 60).tmod 360 : ℤ) : ℚ) 80 65)).s)
        (if "accent" = "accent" ∧ 50 ≤ (measuredHsl (hslHex (((seed + 60).tmod 360 : ℤ) : ℚ) 80 65)).s then max (measuredHsl (hslHex (((seed + 60).tmod 360 : ℤ) : ℚ) 80 65)).l 52 else (measuredHsl (hslHex (((seed + 60).tmod 360 : ℤ) : ℚ) 80 65)).l) :=
    adjustColorPlayful_hex "accent" (generateDarkModePalette seed).colors.accent
  obtain ⟨a5, b5, c5, d5⟩ := meas_80_65 (((seed + 60).tmod 360 : ℤ) : ℚ) q60a q60b
  rw [a5, b5] at e5
  simp only [if_pos (show "accent" = "accent" ∧ (50:ℚ) ≤ 80 from ⟨rfl, by norm_num⟩)] at e5
  rw [show max ((80:ℚ)) 65 = 80 from by norm_num, show max ((65:ℚ)) 52 = 65 from by norm_num] at e5
  obtain ⟨a5x, b5x, -, -⟩ := meas_80_65 _ c5 d5
  have a5 := a5x
  have b5 := b5x
  have fs5 : (measuredHsl (applyPlayfulAdjustments (generateDarkModePalette seed)).colors.accent.hex).s = 80 := by rw [e5]; exact a5
  have fl5 : (measuredHsl (applyPlayfulAdjustments (generateDarkModePalette seed)).colors.accent.hex).l = 65 := by rw [e5]; exact b5
  unfold darkOK
  exact ⟨by rw [fl1]; norm_num, by rw [fl2]; norm_num, by rw [fl3]; norm_num, by rw [fl4]; norm_num, by rw [fl5]; norm_num⟩


end PaletteGenerator

namespace PaletteGenerator

theorem generateOne_pastel (prefs : Preferences) (hmood : prefs.colorMood = "pastel")
    (i : ℕ) (seed : ℤ) (h0 : 0 ≤ seed) (h1 : seed < 360) :
    pastelChromaOK (generateOne prefs i seed).colors := by
  have hcol : (generateOne prefs i seed).colors =
      (typeAdjust prefs.appType (moodPalette prefs.colorMood seed)).colors := rfl
  rw [hcol, hmood]
  have hmp : moodPalette "pastel" seed = generatePastelPalette seed := by
    unfold moodPalette
    rw [if_neg (by decide), if_neg (by decide), if_pos rfl]
  rw [hmp]
  unfold typeAdjust
  split_ifs with hA hB
  · exact pastel_mood_prof seed h0 h1
  · exact pastel_mood_play seed h0 h1
  · exact pastel_mood_id seed h0 h1

theorem generateOne_dark (prefs : Preferences) (hmood : prefs.colorMood = "dark")
    (i : ℕ) (seed : ℤ) (h0 : 0 ≤ seed) (h1 : seed < 360) :
    darkOK (generateOne prefs i seed).colors := by
  have hcol : (generateOne prefs i seed).colors =
      (typeAdjust prefs.appType (moodPalette prefs.colorMood seed)).colors := rfl
  rw [hcol, hmood]
  have hmp : moodPalette "dark" seed = generateDarkModePalette seed := by
    unfold moodPalette
    rw [if_neg (by decide), if_neg (by decide), if_neg (by decide), if_pos rfl]
  rw [hmp]
  unfold typeAdjust
  split_ifs with hA hB
  · exact dark_mood_prof seed h0 h1
  · exact dark_mood_play seed h0 h1
  · exact dark_mood_id seed h0 h1

end PaletteGenerator

/-- C3: mood compliance through the application-type adjustment, for every
appType whose hue lookup misses the `Object.prototype` chain: with
colorMood pastel, every chromatic role of all 3 generated palettes measures
back (hexToRgb then rgbToHsl) to saturation below 50 and lightness above 70;
with colorMood dark, background and surface measure below 20 lightness and
the chromatic roles above 50. On a prototype-key appType the NaN base hue
collapses the palettes to greys and compliance fails (see the
counterexample). -/
theorem C3_mood_compliance (prefs : Preferences) :
    (prefs.colorMood = "pastel" → prefs.appType ∉ PaletteGenerator.protoKeys →
      (PaletteGenerator.generate prefs).Forall
        fun pal => PaletteGenerator.pastelChromaOK pal.colors) ∧
    (prefs.colorMood = "dark" → prefs.appType ∉ PaletteGenerator.protoKeys →
      (PaletteGenerator.generate prefs).Forall
        fun pal => PaletteGenerator.darkOK pal.colors) := by
  obtain ⟨hb0, hb1⟩ :=
    PaletteGenerator.generateBaseHueNum_range prefs.appType prefs.purpose
  have h120a : (0:ℤ) ≤ (PaletteGenerator.generateBaseHueNum prefs.appType prefs.purpose
      + 120).tmod 360 := Int.tmod_nonneg 360 (by omega)
  have h120b : (PaletteGenerator.generateBaseHueNum prefs.appType prefs.purpose
      + 120).tmod 360 < 360 := Int.tmod_lt_of_pos _ (by norm_num)
  have h240a : (0:ℤ) ≤ (PaletteGenerator.generateBaseHueNum prefs.appType prefs.purpose
      + 240).tmod 360 := Int.tmod_nonneg 360 (by omega)
  have h240b : (PaletteGenerator.generateBaseHueNum prefs.appType prefs.purpose
      + 240).tmod 360 < 360 := Int.tmod_lt_of_pos _ (by norm_num)
  constructor
  · intro hmood hA
    have hbase : PaletteGenerator.generateBaseHue prefs.appType prefs.purpose =
        some (PaletteGenerator.generateBaseHueNum prefs.appType prefs.purpose) := by
      unfold PaletteGenerator.generateBaseHue
      rw [if_neg hA]
    have c0 : PaletteGenerator.pastelChromaOK
        (PaletteGenerator.generateOneJ prefs 0
          (PaletteGenerator.generateBaseHue prefs.appType prefs.purpose)).colors := by
      rw [hbase, PaletteGenerator.generateOneJ_some]
      exact PaletteGenerator.generateOne_pastel prefs hmood 0 _ hb0 hb1
    have c1 : PaletteGenerator.pastelChromaOK
        (PaletteGenerator.generateOneJ prefs 1
          (PaletteGenerator.jmod (PaletteGenerator.jadd
            (PaletteGenerator.generateBaseHue prefs.appType prefs.purpose) 120) 360)).colors := by
      rw [hbase, PaletteGenerator.jadd_some, PaletteGenerator.jmod_some,
        PaletteGenerator.generateOneJ_some]
      exact PaletteGenerator.generateOne_pastel prefs hmood 1 _ h120a h120b
    have c2 : PaletteGenerator.pastelChromaOK
        (PaletteGenerator.generateOneJ prefs 2
          (PaletteGenerator.jmod (PaletteGenerator.jadd
            (PaletteGenerator.generateBaseHue prefs.appType prefs.purpose) 240) 360)).colors := by
      rw [hbase, PaletteGenerator.jadd_some, PaletteGenerator.jmod_some,
        PaletteGenerator.generateOneJ_some]
      exact PaletteGenerator.generateOne_pastel prefs hmood 2 _ h240a h240b
    exact ⟨c0, c1, c2⟩
  · intro hmood hA
    have hbase : PaletteGenerator.generateBaseHue prefs.appType prefs.purpose =
        some (PaletteGenerator.generateBaseHueNum prefs.appType prefs.purpose) := by
      unfold PaletteGenerator.generateBaseHue
      rw [if_neg hA]
    have c0 : PaletteGenerator.darkOK
        (PaletteGenerator.generateOneJ prefs 0
          (PaletteGenerator.generateBaseHue prefs.appType prefs.purpose)).colors := by
      rw [hbase, PaletteGenerator.generateOneJ_some]
      exact PaletteGenerator.generateOne_dark prefs hmood 0 _ hb0 hb1
    have c1 : PaletteGenerator.darkOK
        (PaletteGenerator.generateOneJ prefs 1
          (PaletteGenerator.jmod (PaletteGenerator.jadd
            (PaletteGenerator.generateBaseHue prefs.appType prefs.purpose) 120) 360)).colors := by
      rw [hbase, PaletteGenerator.jadd_some, PaletteGenerator.jmod_some,
        PaletteGenerator.generateOneJ_some]
      exact PaletteGenerator.generateOne_dark prefs hmood 1 _ h120a h120b
    have c2 : PaletteGenerator.darkOK
        (PaletteGenerator.generateOneJ prefs 2
          (PaletteGenerator.jmod (PaletteGenerator.jadd
            (PaletteGenerator.generateBaseHue prefs.appType prefs.purpose) 240) 360)).colors := by
      rw [hbase, PaletteGenerator.jadd_some, PaletteGenerator.jmod_some,
        PaletteGenerator.generateOneJ_some]
      exact PaletteGenerator.generateOne_dark prefs hmood 2 _ h240a h240b
    exact ⟨c0, c1, c2⟩

/-- Witness: the pastel branch of the compliance theorem at a concrete
preferences value whose appType misses the prototype chain. -/
theorem C3_mood_compliance_witness :
    (PaletteGenerator.generate ⟨"landing-page", "shop", "pastel"⟩).Forall
      fun pal => PaletteGenerator.pastelChromaOK pal.colors :=
  (C3_mood_compliance ⟨"landing-page", "shop", "pastel"⟩).1 rfl (by decide)

attribute [local semireducible] Rat.add Rat.mul Rat.sub Rat.inv in
set_option maxRecDepth 10000 in
/-- C3 counterexample: with colorMood pastel and the prototype-key appType
"toString" the base hue is NaN, the pastel chromatic colours collapse to
greys, and the first palette's primary measures back to lightness 64, not
above 70. -/
theorem C3_counterexample :
    (ColorUtility.measuredHsl
      (((PaletteGenerator.generate ⟨"toString", "", "pastel"⟩).getD 0
          default).colors.primary.hex)).l = 64 ∧
    ¬ (70 < (ColorUtility.measuredHsl
      (((PaletteGenerator.generate ⟨"toString", "", "pastel"⟩).getD 0
          default).colors.primary.hex)).l) := by
  constructor <;> decide

namespace ColorUtility

end ColorUtility

namespace PaletteGenerator

open ColorUtility

end PaletteGenerator

namespace PaletteGenerator

open ColorUtility

end PaletteGenerator

open PaletteGenerator ColorUtility in
/-- C2 (amended): the professional adjustment re-encodes every colour through
the RGB-HSL round trip. Each chromatic role (primary, secondary, accent) gets
the hex of `hslToRgb h (min s 58) l` and each neutral role (background,
surface, text) the hex of `hslToRgb h s l`, where `(h, s, l)` is the HSL the
colour's previous hex measures back to: only the chromatic saturation is
capped, the hue and lightness parameters and the neutral saturation are
carried over unchanged, and every role and usage string and the palette's
name, vibe and accessiblePairs are untouched. The neutral hex strings are
therefore re-encoded rather than literally preserved. -/
theorem C2_professional_frame (p : Palette) :
    (applyProfessionalAdjustments p).name = p.name ∧
    (applyProfessionalAdjustments p).vibe = p.vibe ∧
    (applyProfessionalAdjustments p).accessiblePairs = p.accessiblePairs ∧
    ((applyProfessionalAdjustments p).colors.primary.hex =
        hslHex (measuredHsl p.colors.primary.hex).h
          (min (measuredHsl p.colors.primary.hex).s 58)
          (measuredHsl p.colors.primary.hex).l ∧
      (applyProfessionalAdjustments p).colors.secondary.hex =
        hslHex (measuredHsl p.colors.secondary.hex).h
          (min (measuredHsl p.colors.secondary.hex).s 58)
          (measuredHsl p.colors.secondary.hex).l ∧
      (applyProfessionalAdjustments p).colors.accent.hex =
        hslHex (measuredHsl p.colors.accent.hex).h
          (min (measuredHsl p.colors.accent.hex).s 58)
          (measuredHsl p.colors.accent.hex).l) ∧
    ((applyProfessionalAdjustments p).colors.background.hex =
        hslHex (measuredHsl p.colors.background.hex).h
          (measuredHsl p.colors.background.hex).s
          (measuredHsl p.colors.background.hex).l ∧
      (applyProfessionalAdjustments p).colors.surface.hex =
        hslHex (measuredHsl p.colors.surface.hex).h
          (measuredHsl p.colors.surface.hex).s
          (measuredHsl p.colors.surface.hex).l ∧
      (applyProfessionalAdjustments p).colors.text.hex =
        hslHex (measuredHsl p.colors.text.hex).h
          (measuredHsl p.colors.text.hex).s
          (measuredHsl p.colors.text.hex).l) ∧
    ((applyProfessionalAdjustments p).colors.primary.role = p.colors.primary.role ∧
      (applyProfessionalAdjustments p).colors.secondary.role = p.colors.secondary.role ∧
      (applyProfessionalAdjustments p).colors.accent.role = p.colors.accent.role ∧
      (applyProfessionalAdjustments p).colors.background.role = p.colors.background.role ∧
      (applyProfessionalAdjustments p).colors.surface.role = p.colors.surface.role ∧
      (applyProfessionalAdjustments p).colors.text.role = p.colors.text.role) ∧
    ((applyProfessionalAdjustments p).colors.primary.usage = p.colors.primary.usage ∧
      (applyProfessionalAdjustments p).colors.secondary.usage = p.colors.secondary.usage ∧
      (applyProfessionalAdjustments p).colors.accent.usage = p.colors.accent.usage ∧
      (applyProfessionalAdjustments p).colors.background.usage = p.colors.background.usage ∧
      (applyProfessionalAdjustments p).colors.surface.usage = p.colors.surface.usage ∧
      (applyProfessionalAdjustments p).colors.text.usage = p.colors.text.usage) :=
  ⟨rfl, rfl, rfl,
   ⟨adjustColorProfessional_hex_chromatic "primary" p.colors.primary
      (by decide) (by decide) (by decide),
    adjustColorProfessional_hex_chromatic "secondary" p.colors.secondary
      (by decide) (by decide) (by decide),
    adjustColorProfessional_hex_chromatic "accent" p.colors.accent
      (by decide) (by decide) (by decide)⟩,
   ⟨adjustColorProfessional_hex_neutral "background" p.colors.background (by decide),
    adjustColorProfessional_hex_neutral "surface" p.colors.surface (by decide),
    adjustColorProfessional_hex_neutral "text" p.colors.text (by decide)⟩,
   ⟨rfl, rfl, rfl, rfl, rfl, rfl⟩, ⟨rfl, rfl, rfl, rfl, rfl, rfl⟩⟩

namespace PaletteGenerator

open ColorUtility

end PaletteGenerator

namespace ColorUtility

end ColorUtility

namespace PaletteGenerator

open ColorUtility

end PaletteGenerator

namespace PaletteGenerator

open ColorUtility

end PaletteGenerator

